import Mathlib

/-!
Verification development for the OpsMindAI incident-response pipeline.

This file gives a shallow embedding of the pure core of the repository:
the incident database tool (`incident_database_tool.py`), the application
log analyzer dispatch (`application_log_analyzer.py`), the webhook alert
severity normalization (`webhook_alert_parser.py`), and the retrospective
report builder (`incident_retrospective_generator.py`), together with
theorems settling the specification's claims about them.

Modelling conventions:
* Python `datetime.now()` / `time.time()` calls are nondeterministic
  inputs; every call site becomes an explicit parameter, in call order.
* Python dicts keyed by strings are association lists whose `insert`
  replaces in place (dict assignment) and otherwise appends.
* Optional string arguments are `Option String`; Python truthiness
  (`if not x`) treats both `none` and `some ""` as falsy.
* Error returns (JSON payloads with `success: false`) are constructors of
  an explicit result type carrying the same data fields.
-/

set_option autoImplicit false

namespace OpsMind

/-- Python truthiness of an optional string: `None` and `""` are falsy. -/
def pyTruthy : Option String → Bool
  | none => false
  | some s => !s.isEmpty

/-- Python `x or d` for an optional string `x` and default `d`:
the default is used when `x` is `None` or empty. -/
def pyOr (x : Option String) (d : String) : String :=
  match x with
  | none => d
  | some s => if s.isEmpty then d else s

/-- Python `str.lower()` restricted to ASCII letters (the inputs of
interest are ASCII operation names). -/
def pyLower (s : String) : String :=
  ⟨s.data.map Char.toLower⟩

/-- Python whitespace characters stripped by `str.strip()` (ASCII part). -/
def pyIsSpace (c : Char) : Bool :=
  c = ' ' || c = '\t' || c = '\n' || c = '\r' || c = '\x0b' || c = '\x0c'

/-- Python `str.strip()`: remove leading and trailing whitespace. -/
def pyStrip (s : String) : String :=
  ⟨((s.data.dropWhile pyIsSpace).reverse.dropWhile pyIsSpace).reverse⟩

/-- Lexicographic comparison of character lists by code point, the
order Python uses to compare strings. -/
def charListLt : List Char → List Char → Bool
  | [], [] => false
  | [], _ :: _ => true
  | _ :: _, [] => false
  | a :: as, b :: bs =>
    if a.toNat < b.toNat then true
    else if a.toNat = b.toNat then charListLt as bs
    else false

/-- Python `a < b` on strings (code-point lexicographic order). -/
def strLtB (a b : String) : Bool :=
  charListLt a.data b.data

namespace IncidentDB

/-- One stored incident record, with exactly the fields written by
`_create_incident` (`incident_database_tool.py`, lines 204-217). -/
structure IncidentRecord where
  incident_id : String
  service_name : String
  severity : String
  status : String
  timestamp : String
  commander : Option String
  communication_lead : Option String
  playbook_applied : Option String
  timeline : Option String
  resolution_details : Option String
  created_at : String
  last_updated : String
deriving Repr, DecidableEq

/-- The in-memory incident store `_incident_store`: a string-keyed dict,
modelled as an association list in insertion order. -/
abbrev Store := List (String × IncidentRecord)

/-- `list(store.keys())`. -/
def Store.keys (s : Store) : List String := s.map Prod.fst

/-- Dict lookup `store[k]` / `k in store`. -/
def Store.find? : Store → String → Option IncidentRecord
  | [], _ => none
  | (k', v) :: rest, k => if k' = k then some v else Store.find? rest k

/-- Dict assignment `store[k] = v`: replace in place if the key exists
(keys are unique in a dict, so replacing the first occurrence is dict
assignment), append otherwise. -/
def Store.insert : Store → String → IncidentRecord → Store
  | [], k, v => [(k, v)]
  | (k', v') :: rest, k, v =>
    if k' = k then (k, v) :: rest else (k', v') :: Store.insert rest k v

/-- Dict removal `store.pop(k)`. -/
def Store.erase : Store → String → Store
  | [], _ => []
  | (k', v') :: rest, k =>
    if k' = k then Store.erase rest k else (k', v') :: Store.erase rest k

/-- The tool's persistent state: the class-level in-memory store and the
JSON mirror file `incidents_database.json` (its parsed content). -/
structure DbState where
  store : Store
  file : Store
deriving Repr, DecidableEq

/-- `_ensure_data_loaded`: if the in-memory store is empty, load the
mirror file into it (`_load_from_file` merges the file's entries into the
empty store, which makes the store equal to the file content). -/
def loadIfEmpty (st : DbState) : DbState :=
  if st.store.isEmpty then { st with store := st.file } else st

/-- `_save_to_file`: rewrite the mirror file with the whole store. -/
def saveToFile (st : DbState) : DbState :=
  { st with file := st.store }

/-- Structured results of a database operation, mirroring the JSON
payloads returned by `incident_database_tool.py`. -/
inductive DbResult where
  | createOk (message : String) (data : IncidentRecord)
  | readOk (data : IncidentRecord)
  | updateOk (message : String) (updated_fields : List String) (data : IncidentRecord)
  | listOk (message : String) (count : Nat) (data : List IncidentRecord)
  | deleteOk (message : String) (deleted_data : IncidentRecord) (remaining_count : Nat)
  | validationError (error : String)
  | notFound (error : String) (available_incidents : List String)
  | noOp (error : String) (current_data : IncidentRecord)
  | invalidOp (error : String)
deriving Repr, DecidableEq

/-- The ten optional request fields of `IncidentDatabaseRequest` other
than `operation`. -/
structure Fields where
  incident_id : Option String
  service_name : Option String
  severity : Option String
  status : Option String
  timestamp : Option String
  commander : Option String
  communication_lead : Option String
  playbook_applied : Option String
  timeline : Option String
  resolution_details : Option String
deriving Repr, DecidableEq

/-- The all-`None` request fields. -/
def Fields.empty : Fields :=
  ⟨none, none, none, none, none, none, none, none, none, none⟩

/-- Core of Python `re.match(r'^INC-\d+$', s)`: `INC-` followed by at
least one digit, consuming the whole character list. -/
def incCore : List Char → Bool
  | 'I' :: 'N' :: 'C' :: '-' :: rest => !rest.isEmpty && rest.all Char.isDigit
  | _ => false

/-- Python `re.match(r'^INC-\d+$', s)` truthiness. In Python's `re`, `$`
matches at the end of the string or just before a single trailing
newline, so `"INC-123\n"` also matches. `\d` is modelled as an ASCII
digit. -/
def matchesIncFormat (s : String) : Bool :=
  incCore s.data ||
    (s.data.getLast? = some '\n' && incCore s.data.dropLast)

/-- The ID format as worded by the specification: a full, exact match of
`INC-\d+` with nothing else (in particular no trailing newline). Stated
separately from `matchesIncFormat` so the two can be compared. -/
def specIncFormat (s : String) : Bool :=
  incCore s.data

/-- `_generate_incident_id`: `INC-` followed by the current Unix
millisecond timestamp, which is passed in as `genMs`. -/
def generateIncidentId (genMs : Nat) : String :=
  "INC-" ++ toString genMs

/-- ID choice of `_create_incident` (lines 182-191): keep a truthy
provided ID matching the format, otherwise generate `INC-<genMs>`. -/
def chooseIncidentId (provided : Option String) (genMs : Nat) : String :=
  match provided with
  | none => generateIncidentId genMs
  | some i =>
    if i.isEmpty then generateIncidentId genMs
    else if matchesIncFormat i then i
    else generateIncidentId genMs

/-- The record literal built by `_create_incident` (lines 204-217). -/
def newIncidentRecord (f : Fields) (incident_id tsNow createdNow updatedNow : String) :
    IncidentRecord :=
  { incident_id := incident_id
    service_name := f.service_name.getD ""
    severity := pyOr f.severity "Medium"
    status := pyOr f.status "Open"
    timestamp := pyOr f.timestamp tsNow
    commander := f.commander
    communication_lead := f.communication_lead
    playbook_applied := f.playbook_applied
    timeline := f.timeline
    resolution_details := f.resolution_details
    created_at := createdNow
    last_updated := updatedNow }

/-- `_create_incident`. The three `datetime.now().isoformat()` call
sites become the parameters `tsNow` (default for `timestamp`, line 195),
`createdNow` (`created_at`, line 215) and `updatedNow` (`last_updated`,
line 216); `time.time()*1000` for ID generation becomes `genMs`. -/
def createIncident (st : DbState) (f : Fields) (genMs : Nat)
    (tsNow createdNow updatedNow : String) : DbResult × DbState :=
  let st := loadIfEmpty st
  let incident_id := chooseIncidentId f.incident_id genMs
  if !pyTruthy f.service_name then
    (DbResult.validationError "service_name is required for creating an incident", st)
  else
    let record := newIncidentRecord f incident_id tsNow createdNow updatedNow
    let store' := Store.insert st.store incident_id record
    (DbResult.createOk ("Incident \x27" ++ incident_id ++ "\x27 created successfully") record,
      saveToFile { st with store := store' })

/-- `_read_incident`. -/
def readIncident (st : DbState) (incident_id : Option String) : DbResult × DbState :=
  let st := loadIfEmpty st
  if !pyTruthy incident_id then
    (DbResult.validationError "incident_id is required for read operation", st)
  else
    let id := incident_id.getD ""
    match Store.find? st.store id with
    | none =>
      (DbResult.notFound ("Incident with ID \x27" ++ id ++ "\x27 not found") (Store.keys st.store), st)
    | some r => (DbResult.readOk r, st)

/-- Field-merge step of `_update_incident` (lines 292-319): overwrite
each field that was provided (`is not None`, so an empty string counts as
provided) and collect the names of the updated fields in source order. -/
def applyUpdates (r : IncidentRecord) (f : Fields) : IncidentRecord × List String :=
  let step := fun (acc : IncidentRecord × List String) (v : Option String)
      (name : String) (set : IncidentRecord → String → IncidentRecord) =>
    match v with
    | none => acc
    | some s => (set acc.1 s, acc.2 ++ [name])
  let acc := (r, ([] : List String))
  let acc := step acc f.service_name "service_name" (fun r s => { r with service_name := s })
  let acc := step acc f.severity "severity" (fun r s => { r with severity := s })
  let acc := step acc f.status "status" (fun r s => { r with status := s })
  let acc := step acc f.timestamp "timestamp" (fun r s => { r with timestamp := s })
  let acc := step acc f.commander "commander" (fun r s => { r with commander := some s })
  let acc := step acc f.communication_lead "communication_lead"
    (fun r s => { r with communication_lead := some s })
  let acc := step acc f.playbook_applied "playbook_applied"
    (fun r s => { r with playbook_applied := some s })
  let acc := step acc f.timeline "timeline" (fun r s => { r with timeline := some s })
  let acc := step acc f.resolution_details "resolution_details"
    (fun r s => { r with resolution_details := some s })
  acc

/-- `_update_incident`. Note the source order: the stored record (an
aliased dict) has every provided field overwritten and `last_updated`
refreshed (line 322) before the `if not updates` check (line 324), so
even the no-op error path leaves a mutated record in the in-memory store;
only `_save_to_file` is skipped on that path. -/
def updateIncident (st : DbState) (f : Fields) (updatedNow : String) : DbResult × DbState :=
  let st := loadIfEmpty st
  if !pyTruthy f.incident_id then
    (DbResult.validationError "incident_id is required for update operation", st)
  else
    let id := f.incident_id.getD ""
    match Store.find? st.store id with
    | none =>
      (DbResult.notFound ("Incident with ID \x27" ++ id ++ "\x27 not found") (Store.keys st.store), st)
    | some r =>
      let (r1, updates) := applyUpdates r f
      let r2 := { r1 with last_updated := updatedNow }
      let store' := Store.insert st.store id r2
      if updates.isEmpty then
        (DbResult.noOp "No fields provided for update. At least one field must be specified." r2,
          { st with store := store' })
      else
        (DbResult.updateOk ("Incident \x27" ++ id ++ "\x27 updated successfully") updates r2,
          saveToFile { st with store := store' })

/-- Stable insertion used to model Python `sorted(..., reverse=True)`
by `created_at` (descending, equal keys keep encounter order). -/
def insertDescByCreated (x : IncidentRecord) : List IncidentRecord → List IncidentRecord
  | [] => [x]
  | y :: ys =>
    if strLtB y.created_at x.created_at then x :: y :: ys
    else y :: insertDescByCreated x ys

/-- `sorted(values, key=created_at, reverse=True)`. -/
def sortByCreatedDesc (l : List IncidentRecord) : List IncidentRecord :=
  l.foldl (fun acc x => insertDescByCreated x acc) []

/-- `_list_incidents`. -/
def listIncidents (st : DbState) : DbResult × DbState :=
  let st := loadIfEmpty st
  let n := st.store.length
  if n = 0 then
    (DbResult.listOk "No incidents found in database" 0 [], st)
  else
    (DbResult.listOk ("Retrieved " ++ toString n ++ " incident(s)") n
      (sortByCreatedDesc (st.store.map Prod.snd)), st)

/-- `_delete_incident`. -/
def deleteIncident (st : DbState) (incident_id : Option String) : DbResult × DbState :=
  let st := loadIfEmpty st
  if !pyTruthy incident_id then
    (DbResult.validationError "incident_id is required for delete operation", st)
  else
    let id := incident_id.getD ""
    match Store.find? st.store id with
    | none =>
      (DbResult.notFound ("Incident with ID \x27" ++ id ++ "\x27 not found") (Store.keys st.store), st)
    | some r =>
      let store' := Store.erase st.store id
      (DbResult.deleteOk ("Incident \x27" ++ id ++ "\x27 deleted successfully") r store'.length,
        saveToFile { st with store := store' })

/-- `_run` of the incident database tool: normalize the operation name
with `.lower().strip()` and dispatch; unknown operations return a
structured failure naming the supported operations and touch nothing. -/
def runOperation (operation : String) (f : Fields) (st : DbState) (genMs : Nat)
    (tsNow createdNow updatedNow : String) : DbResult × DbState :=
  let op := pyStrip (pyLower operation)
  if op = "create" then createIncident st f genMs tsNow createdNow updatedNow
  else if op = "read" then readIncident st f.incident_id
  else if op = "update" then updateIncident st f updatedNow
  else if op = "list" then listIncidents st
  else if op = "delete" then deleteIncident st f.incident_id
  else
    (DbResult.invalidOp ("Invalid operation \x27" ++ op ++
      "\x27. Supported operations: create, read, update, list, delete"), st)

end IncidentDB

namespace LogAnalyzer

/-- The nine-field candidate dictionary produced by each extraction
strategy of `application_log_analyzer.py` (`_analyze_structured_logs`,
`_analyze_java_logs`, `_analyze_python_logs`, `_analyze_nodejs_logs`,
`_analyze_generic_logs` all initialize exactly these keys). -/
structure Analysis where
  service_name : Option String
  extracted_classname : Option String
  method_name : Option String
  line_number : Option Int
  error_type : Option String
  endpoint : Option String
  timestamp : Option String
  file_path : Option String
  root_cause_summary : Option String
deriving Repr, DecidableEq

/-- The all-`None` candidate. -/
def Analysis.blank : Analysis :=
  ⟨none, none, none, none, none, none, none, none, none⟩

/-- `sum(1 for v in x.values() if v is not None)`: the number of
non-null values among the nine fields. -/
def Analysis.nonNullCount (a : Analysis) : Nat :=
  (if a.service_name.isSome then 1 else 0) +
  (if a.extracted_classname.isSome then 1 else 0) +
  (if a.method_name.isSome then 1 else 0) +
  (if a.line_number.isSome then 1 else 0) +
  (if a.error_type.isSome then 1 else 0) +
  (if a.endpoint.isSome then 1 else 0) +
  (if a.timestamp.isSome then 1 else 0) +
  (if a.file_path.isSome then 1 else 0) +
  (if a.root_cause_summary.isSome then 1 else 0)

/-- `_has_substantial_data`: at least 2 of the four key fields
`service_name`, `extracted_classname`, `method_name`, `error_type` are
non-null. -/
def hasSubstantialData (a : Analysis) : Bool :=
  ((if a.service_name.isSome then 1 else 0) +
   (if a.extracted_classname.isSome then 1 else 0) +
   (if a.method_name.isSome then 1 else 0) +
   (if a.error_type.isSome then 1 else 0) : Nat) ≥ 2

/-- `max(analyses, key=non-null count)` over the four traditional
candidates in declaration order Java, Python, Node.js, generic: Python's
`max` keeps the current element on ties, so the earliest candidate with
the maximal count wins. -/
def selectBest (java python nodejs generic : Analysis) : Analysis :=
  let b1 := java
  let b2 := if python.nonNullCount > b1.nonNullCount then python else b1
  let b3 := if nodejs.nonNullCount > b2.nonNullCount then nodejs else b2
  if generic.nonNullCount > b3.nonNullCount then generic else b3

/-- The full result dictionary built by `_run` (lines 38-51), with the
three fields added on top of the candidate fields. `additional_details`
stays an empty dict throughout `_run` and is omitted. -/
structure LogResult where
  service_name : Option String
  extracted_classname : Option String
  method_name : Option String
  line_number : Option Int
  error_type : Option String
  endpoint : Option String
  timestamp : Option String
  file_path : Option String
  root_cause_summary : Option String
  suggested_fix_type : Option String
  log_format : Option String
deriving Repr, DecidableEq

/-- Copy the nine candidate fields into a result
(`result.update(structured_analysis)`, or the merge loop over
`best_analysis` — the merge `if value is not None and result.get(key) is
None` starts from an all-null result, so both assign the candidate's
fields verbatim). -/
def LogResult.withAnalysis (a : Analysis) (fix fmt : Option String) : LogResult :=
  { service_name := a.service_name
    extracted_classname := a.extracted_classname
    method_name := a.method_name
    line_number := a.line_number
    error_type := a.error_type
    endpoint := a.endpoint
    timestamp := a.timestamp
    file_path := a.file_path
    root_cause_summary := a.root_cause_summary
    suggested_fix_type := fix
    log_format := fmt }

/-- Substring test, Python `needle in haystack` on strings, on the
character-list level. -/
def listContainsSub (needle : List Char) : List Char → Bool
  | [] => needle.isEmpty
  | c :: rest => needle.isPrefixOf (c :: rest) || listContainsSub needle rest

/-- Python `needle in haystack` for strings. -/
def strContains (haystack needle : String) : Bool :=
  listContainsSub needle.data haystack.data

/-- The configuration keyword list of `_determine_fix_type`. -/
def configKeywords : List String :=
  ["config", "property", "setting", "parameter", "env",
   "connection", "timeout", "port", "host", "url",
   "permission", "access", "auth", "credential",
   "file not found", "enoent", "path", "directory"]

/-- `_determine_fix_type`. When `root_cause_summary` is null the source
calls `.lower()` on `None`, which raises and is caught by the method's
own `except`, returning `"code"`. When it is present, a configuration
keyword contained in the lower-cased text yields `"configuration"`;
every other path returns `"code"` (the code-error-type check compares
each keyword with itself, so it adds nothing beyond `"code"`). -/
def determineFixType (root_cause : Option String) : String :=
  match root_cause with
  | none => "code"
  | some rc =>
    if configKeywords.any (fun k => strContains (pyLower rc) k) then "configuration"
    else "code"

/-- Dispatch logic of `_run` (lines 53-84). The five extraction results
and the timestamp-pattern fallback are computed from `log_content` by
the regex strategies; they enter here as explicit inputs:
`structured = _analyze_structured_logs(log_content)`,
`java/python/nodejs/generic = _analyze_*_logs(log_content)` and
`tsFallback = _extract_timestamp_patterns(log_content)`. -/
def analyzeDispatch (structured java python nodejs generic : Analysis)
    (tsFallback : Option String) : LogResult :=
  let r1 :=
    if hasSubstantialData structured then
      LogResult.withAnalysis structured none (some "structured")
    else
      LogResult.withAnalysis (selectBest java python nodejs generic) none (some "traditional")
  let r2 := if pyTruthy r1.timestamp then r1 else { r1 with timestamp := tsFallback }
  { r2 with suggested_fix_type := some (determineFixType r2.root_cause_summary) }

end LogAnalyzer

namespace Webhook

/-- The four severity thresholds of `webhook_alert_parser.py`. Metric
values and thresholds are modelled as rationals (JSON numbers compared
with `>=`). -/
structure Thresholds where
  critical : ℚ
  high : ℚ
  medium : ℚ
  low : ℚ
deriving Repr, DecidableEq

/-- The default threshold dict of `_run` (lines 50-55) updated with the
caller's overrides (`thresholds.update(custom_thresholds)`): each key
defaults when not overridden. -/
def mergeThresholds (c h m l : Option ℚ) : Thresholds :=
  { critical := c.getD 90, high := h.getD 70, medium := m.getD 50, low := l.getD 30 }

/-- `_calculate_severity` (lines 377-386). -/
def calculateSeverity (metric_value : ℚ) (t : Thresholds) : String :=
  if metric_value ≥ t.critical then "P1"
  else if metric_value ≥ t.high then "P2"
  else if metric_value ≥ t.medium then "P3"
  else "P4"

/-- The severity step of `_run` (lines 80-85): compute the severity from
the normalized alert's metric value, then set `should_create_incident`
to `severity in ["P1", "P2"]`. -/
def severityStep (metric_value : ℚ) (t : Thresholds) : String × Bool :=
  let severity := calculateSeverity metric_value t
  (severity, severity == "P1" || severity == "P2")

end Webhook

namespace Retro

/-- A parsed Python `datetime`: proleptic-Gregorian date, time of day,
microseconds, and the UTC offset in minutes for timezone-aware values
(`None` for naive values). -/
structure PyDateTime where
  year : Nat
  month : Nat
  day : Nat
  hour : Nat
  minute : Nat
  second : Nat
  usec : Nat
  tzMin : Option Int
deriving Repr, DecidableEq

/-- Days in a month of the Gregorian calendar. -/
def daysInMonth (y m : Nat) : Nat :=
  if m = 2 then
    if y % 4 = 0 && (y % 100 ≠ 0 || y % 400 = 0) then 29 else 28
  else if m = 4 || m = 6 || m = 9 || m = 11 then 30
  else 31

/-- Range validation performed by `datetime`'s constructor after
`strptime` matching. -/
def validDateTime (d : PyDateTime) : Bool :=
  1 ≤ d.year && d.year ≤ 9999 &&
  1 ≤ d.month && d.month ≤ 12 &&
  1 ≤ d.day && d.day ≤ daysInMonth d.year d.month &&
  d.hour ≤ 23 && d.minute ≤ 59 && d.second ≤ 59 && d.usec ≤ 999999

/-- Days since 1970-01-01 of a Gregorian date (valid for `y ≥ 1`),
following the standard civil-from-days algorithm. -/
def daysFromCivil (y m d : Nat) : Int :=
  let y' := if m ≤ 2 then y - 1 else y
  let era := y' / 400
  let yoe := y' % 400
  let doy := (153 * (if m > 2 then m - 3 else m + 9) + 2) / 5 + (d - 1)
  let doe := yoe * 365 + yoe / 4 - yoe / 100 + doy
  (era * 146097 + doe : Int) - 719468

/-- The instant of a datetime in microseconds since the epoch; for an
aware value the UTC offset is subtracted, as `datetime` subtraction
does. -/
def totalMicros (t : PyDateTime) : Int :=
  ((daysFromCivil t.year t.month t.day) * 86400 +
    (t.hour : Int) * 3600 + (t.minute : Int) * 60 + (t.second : Int) -
    (t.tzMin.getD 0) * 60) * 1000000 + (t.usec : Int)

/-- Take up to `n` leading ASCII digits, returning their value, how many
were consumed, and the remaining characters. -/
def takeDigits : Nat → List Char → Nat × Nat × List Char
  | 0, cs => (0, 0, cs)
  | _ + 1, [] => (0, 0, [])
  | n + 1, c :: cs =>
    if c.isDigit then
      let (v, k, rest) := takeDigits n cs
      ((c.toNat - 48) * 10 ^ k + v, k + 1, rest)
    else (0, 0, c :: cs)

/-- Match exactly `n` ASCII digits. -/
def exactDigits (n : Nat) (cs : List Char) : Option (Nat × List Char) :=
  let (v, k, rest) := takeDigits n cs
  if k = n then some (v, rest) else none

/-- Match one literal character. -/
def lit (c : Char) : List Char → Option (List Char)
  | [] => none
  | d :: rest => if d = c then some rest else none

/-- Match a one-or-two-digit field whose value must be at most `hi`
(models the alternation `strptime` uses for `%m`, `%d`, `%H`, `%M`,
`%S`: two digits are preferred, one digit is accepted). -/
def flexField (hi : Nat) (cs : List Char) : Option (Nat × List Char) :=
  match exactDigits 2 cs with
  | some (v, rest) => if v ≤ hi then some (v, rest) else
      match exactDigits 1 cs with
      | some (v1, rest1) => if v1 ≤ hi then some (v1, rest1) else none
      | none => none
  | none =>
    match exactDigits 1 cs with
    | some (v1, rest1) => if v1 ≤ hi then some (v1, rest1) else none
    | none => none

/-- Match `%f`: one to six fractional-second digits, scaled to
microseconds. -/
def fracField (cs : List Char) : Option (Nat × List Char) :=
  let (v, k, rest) := takeDigits 6 cs
  if 1 ≤ k then some (v * 10 ^ (6 - k), rest) else none

/-- Shared date-time core `%Y-%m-%d<sep>%H:%M:%S` of the four `strptime`
formats of `_parse_timestamp`. -/
def parseCore (sep : Char) (cs : List Char) :
    Option (Nat × Nat × Nat × Nat × Nat × Nat × List Char) := do
  let (y, cs) ← exactDigits 4 cs
  let cs ← lit '-' cs
  let (mo, cs) ← flexField 12 cs
  let cs ← lit '-' cs
  let (d, cs) ← flexField 31 cs
  let cs ← lit sep cs
  let (h, cs) ← flexField 23 cs
  let cs ← lit ':' cs
  let (mi, cs) ← flexField 59 cs
  let cs ← lit ':' cs
  let (s, cs) ← flexField 59 cs
  pure (y, mo, d, h, mi, s, cs)

/-- Build a naive datetime, validating ranges as `datetime` does. -/
def mkNaive (y mo d h mi s us : Nat) : Option PyDateTime :=
  let t : PyDateTime := ⟨y, mo, d, h, mi, s, us, none⟩
  if validDateTime t then some t else none

/-- `strptime` with format `"%Y-%m-%dT%H:%M:%S.%fZ"`. -/
def parseFmt1 (cs : List Char) : Option PyDateTime := do
  let (y, mo, d, h, mi, s, cs) ← parseCore 'T' cs
  let cs ← lit '.' cs
  let (us, cs) ← fracField cs
  let cs ← lit 'Z' cs
  if cs.isEmpty then mkNaive y mo d h mi s us else none

/-- `strptime` with format `"%Y-%m-%dT%H:%M:%SZ"`. -/
def parseFmt2 (cs : List Char) : Option PyDateTime := do
  let (y, mo, d, h, mi, s, cs) ← parseCore 'T' cs
  let cs ← lit 'Z' cs
  if cs.isEmpty then mkNaive y mo d h mi s 0 else none

/-- `strptime` with format `"%Y-%m-%d %H:%M:%S"`. -/
def parseFmt3 (cs : List Char) : Option PyDateTime := do
  let (y, mo, d, h, mi, s, cs) ← parseCore ' ' cs
  if cs.isEmpty then mkNaive y mo d h mi s 0 else none

/-- `strptime` with format `"%Y-%m-%dT%H:%M:%S"`. -/
def parseFmt4 (cs : List Char) : Option PyDateTime := do
  let (y, mo, d, h, mi, s, cs) ← parseCore 'T' cs
  if cs.isEmpty then mkNaive y mo d h mi s 0 else none

/-- An optional UTC offset suffix `+HH:MM` / `-HH:MM` for the
`fromisoformat` fallback. -/
def parseOffset (cs : List Char) : Option (Option Int × List Char) :=
  match cs with
  | [] => some (none, [])
  | c :: rest =>
    if c = '+' || c = '-' then
      match exactDigits 2 rest with
      | none => none
      | some (oh, rest1) =>
        match lit ':' rest1 with
        | none => none
        | some rest2 =>
          match exactDigits 2 rest2 with
          | none => none
          | some (om, rest3) =>
            if rest3.isEmpty && om ≤ 59 then
              let v : Int := (oh : Int) * 60 + om
              some (some (if c = '-' then -v else v), rest3)
            else none
    else none

/-- The `datetime.fromisoformat` fallback of `_parse_timestamp` (line
139), applied after `'Z'` has been replaced by `'+00:00'`: a date-time
with `'T'` or space separator, optional fractional seconds, and an
optional `±HH:MM` offset. -/
def parseIso (cs : List Char) : Option PyDateTime := do
  let (y, cs) ← exactDigits 4 cs
  let cs ← lit '-' cs
  let (mo, cs) ← exactDigits 2 cs
  let cs ← lit '-' cs
  let (d, cs) ← exactDigits 2 cs
  match cs with
  | [] => mkNaive y mo d 0 0 0 0
  | sep :: cs =>
    if sep = 'T' || sep = ' ' then do
      let (h, cs) ← exactDigits 2 cs
      let cs ← lit ':' cs
      let (mi, cs) ← exactDigits 2 cs
      let cs ← lit ':' cs
      let (s, cs) ← exactDigits 2 cs
      let (us, cs) ←
        match cs with
        | '.' :: cs1 =>
          match fracField cs1 with
          | some (us, rest) => some (us, rest)
          | none => none
        | _ => some (0, cs)
      let (tz, cs) ← parseOffset cs
      if cs.isEmpty then do
        let t ← mkNaive y mo d h mi s us
        pure { t with tzMin := tz }
      else none
    else none

/-- Python `str.replace('Z', '+00:00')` on the character level. -/
def replaceZ : List Char → List Char
  | [] => []
  | c :: rest => if c = 'Z' then '+' :: '0' :: '0' :: ':' :: '0' :: '0' :: replaceZ rest
    else c :: replaceZ rest

/-- `_parse_timestamp` (`incident_retrospective_generator.py`, lines
118-142): falsy input gives `None`; otherwise the four `strptime`
formats are tried in order, then the `fromisoformat` fallback on the
`Z`-replaced string; total failure gives `None`. -/
def parseTimestamp (ts : Option String) : Option PyDateTime :=
  match ts with
  | none => none
  | some s =>
    if s.isEmpty then none
    else
      match parseFmt1 s.data with
      | some t => some t
      | none =>
        match parseFmt2 s.data with
        | some t => some t
        | none =>
          match parseFmt3 s.data with
          | some t => some t
          | none =>
            match parseFmt4 s.data with
            | some t => some t
            | none => parseIso (replaceZ s.data)

/-- Python `str(x)` where `x` is an optional string (`str(None)` is the
text `"None"`). -/
def pyStr (o : Option String) : String :=
  match o with
  | none => "None"
  | some s => s

/-- Python `int()` truncation toward zero of an exact quotient `a / b`
(`b > 0`): models `int(duration.total_seconds() / 60)` with the duration
carried in integer microseconds. -/
def truncDiv (a b : Int) : Int :=
  Int.tdiv a b

/-- Round-half-even of the exact quotient `a / b` (`b > 0`): models
Python's `round` applied to `total_seconds()/3600` at two decimals, with
the result scaled by 100 (so a value of `150` denotes `1.50` hours). -/
def halfEvenDiv (a b : Int) : Int :=
  let q := Int.fdiv a b
  let r := a - q * b
  if 2 * r < b then q
  else if b < 2 * r then q + 1
  else if q % 2 = 0 then q else q + 1

/-- An aware/naive mismatch: Python raises `TypeError` when subtracting
a naive datetime from an aware one, which `_calculate_metrics` catches,
recording `calculation_error` and skipping the remaining metrics. -/
def tzMismatch (a b : PyDateTime) : Bool :=
  a.tzMin.isSome != b.tzMin.isSome

/-- The incident-data dictionary as read by the retrospective generator:
one optional field per key the source accesses (`None` models an absent
key; `.get` defaults are applied at each use site). -/
structure RetroIncident where
  incident_id : Option String
  title : Option String
  description : Option String
  severity : Option String
  priority : Option String
  status : Option String
  created_at : Option String
  resolved_at : Option String
  first_response_at : Option String
  reporter : Option String
  assigned_to : Option String
  incident_type : Option String
  root_cause : Option String
  failure_point : Option String
  logs_analysis : Option String
  technical_details : Option String
  business_impact : Option String
  financial_impact : Option String
  impact_level : Option String
  incident_commander : Option String
  tags : Option (List String)
  contributing_factors : Option (List String)
  five_whys : Option (List String)
  immediate_actions : Option (List String)
  manual_steps : Option (List String)
  preventive_measures : Option (List String)
  affected_systems : Option (List String)
  assigned_engineers : Option (List String)
  escalated_to : Option (List String)
  external_contacts : Option (List String)
  what_went_well : Option (List String)
  what_could_be_improved : Option (List String)
  action_items : Option (List String)
  prevention_recommendations : Option (List String)
  process_improvements : Option (List String)
  monitoring_enhancements : Option (List String)
  training_needs : Option (List String)
  error_logs : Option (List String)
  configuration_changes : Option (List String)
  monitoring_alerts : Option (List String)
  system_metrics : Option (List (String × String))
  affected_users_count : Option Int
  customer_complaints : Option Int
  sla_breach : Option Bool
deriving Repr, DecidableEq

/-- The incident dictionary with every key absent. -/
def RetroIncident.empty : RetroIncident :=
  ⟨none, none, none, none, none, none, none, none, none, none, none, none,
   none, none, none, none, none, none, none, none, none, none, none, none,
   none, none, none, none, none, none, none, none, none, none, none, none,
   none, none, none, none, none, none, none, none⟩

/-- The GitHub PR details dictionary, as read by the generator. -/
structure PRDetails where
  number : Option String
  title : Option String
  html_url : Option String
  created_at : Option String
  merged_at : Option String
  changed_files : Option Int
  additions : Option Int
  deletions : Option Int
deriving Repr, DecidableEq

/-- The Confluence page details dictionary. -/
structure ConfDetails where
  title : Option String
  url : Option String
  created_at : Option String
deriving Repr, DecidableEq

/-- The Slack details dictionary. -/
structure SlackDetails where
  channel : Option String
  participants : Option (List String)
  messages : Option (List String)
deriving Repr, DecidableEq

/-- The metrics dictionary built by `_calculate_metrics`; `none` models
an absent key. Hours are scaled by 100 (two rounded decimals). -/
structure Metrics where
  total_incident_duration_minutes : Option Int
  total_incident_duration_hours_x100 : Option Int
  first_response_time_minutes : Option Int
  resolution_method : Option String
  affected_systems : Option Nat
  affected_users : Option Int
  team_members_involved : Option Nat
  calculation_error : Bool
deriving Repr, DecidableEq

/-- `_determine_resolution_method`. -/
def determineResolutionMethod (pr : Option PRDetails) (conf : Option ConfDetails)
    (inc : RetroIncident) : String :=
  let methods :=
    (if (match pr with | some p => pyTruthy p.merged_at | none => false) then ["Code Fix"] else []) ++
    (if (inc.manual_steps.getD []).isEmpty then [] else ["Manual Intervention"]) ++
    (if (inc.configuration_changes.getD []).isEmpty then [] else ["Configuration Change"]) ++
    (if conf.isSome then ["Documentation Update"] else [])
  if methods.isEmpty then "Unknown" else String.intercalate ", " methods

/-- Tail of `_calculate_metrics` after the duration step: the
first-response latency, then the remaining always-set metrics. -/
def metricsTail (m : Metrics) (ct ft : Option PyDateTime) (pr : Option PRDetails)
    (conf : Option ConfDetails) (slack : Option SlackDetails) (inc : RetroIncident) : Metrics :=
  match ct, ft with
  | some a, some c =>
    if tzMismatch a c then { m with calculation_error := true }
    else
      let m := { m with
        first_response_time_minutes := some (truncDiv (totalMicros c - totalMicros a) 60000000) }
      { m with
        resolution_method := some (determineResolutionMethod pr conf inc)
        affected_systems := some (inc.affected_systems.getD []).length
        affected_users := some (inc.affected_users_count.getD 0)
        team_members_involved :=
          match slack with
          | some sl => some (sl.participants.getD []).dedup.length
          | none => none }
  | _, _ =>
    { m with
      resolution_method := some (determineResolutionMethod pr conf inc)
      affected_systems := some (inc.affected_systems.getD []).length
      affected_users := some (inc.affected_users_count.getD 0)
      team_members_involved :=
        match slack with
        | some sl => some (sl.participants.getD []).dedup.length
        | none => none }

/-- `_calculate_metrics` (lines 82-116). Durations are computed from the
exact microsecond difference; a naive/aware mismatch on subtraction
raises inside the method's `try`, leaving only the keys set so far plus
`calculation_error`. -/
def calcMetrics (inc : RetroIncident) (pr : Option PRDetails)
    (conf : Option ConfDetails) (slack : Option SlackDetails) : Metrics :=
  let ct := parseTimestamp inc.created_at
  let rt := parseTimestamp inc.resolved_at
  let ft := parseTimestamp inc.first_response_at
  let base : Metrics := ⟨none, none, none, none, none, none, none, false⟩
  match ct, rt with
  | some a, some b =>
    if tzMismatch a b then { base with calculation_error := true }
    else
      let d := totalMicros b - totalMicros a
      let m := { base with
        total_incident_duration_minutes := some (truncDiv d 60000000)
        total_incident_duration_hours_x100 := some (halfEvenDiv d 36000000) }
      metricsTail m ct ft pr conf slack inc
  | _, _ => metricsTail base ct ft pr conf slack inc

/-- The executive-summary section. `total_duration_hours_x100` and
`first_response_time_minutes` are `none` exactly when the source renders
the `"N/A"` placeholder for the missing metric. -/
structure ExecutiveSummary where
  incident_id : String
  severity : String
  priority : String
  status : String
  total_duration_hours_x100 : Option Int
  first_response_time_minutes : Option Int
  affected_systems_count : Nat
  affected_users_count : Int
  resolution_method : String
  brief_description : String
deriving Repr, DecidableEq

/-- `_generate_executive_summary`. -/
def generateExecutiveSummary (inc : RetroIncident) (m : Metrics) : ExecutiveSummary :=
  { incident_id := inc.incident_id.getD "N/A"
    severity := inc.severity.getD "Unknown"
    priority := inc.priority.getD "Unknown"
    status := inc.status.getD "Unknown"
    total_duration_hours_x100 := m.total_incident_duration_hours_x100
    first_response_time_minutes := m.first_response_time_minutes
    affected_systems_count := m.affected_systems.getD 0
    affected_users_count := m.affected_users.getD 0
    resolution_method := m.resolution_method.getD "Unknown"
    brief_description := ⟨(inc.description.getD "No description provided").data.take 200⟩ ++ "..." }

/-- The incident-details section (raw field echo). -/
structure IncidentDetails where
  incident_id : Option String
  title : Option String
  description : Option String
  severity : Option String
  priority : Option String
  status : Option String
  created_at : Option String
  resolved_at : Option String
  reporter : Option String
  assigned_to : Option String
  tags : List String
  incident_type : Option String
deriving Repr, DecidableEq

/-- `_extract_incident_details`. -/
def extractIncidentDetails (inc : RetroIncident) : IncidentDetails :=
  { incident_id := inc.incident_id
    title := inc.title
    description := inc.description
    severity := inc.severity
    priority := inc.priority
    status := inc.status
    created_at := inc.created_at
    resolved_at := inc.resolved_at
    reporter := inc.reporter
    assigned_to := inc.assigned_to
    tags := inc.tags.getD []
    incident_type := inc.incident_type }

/-- The root-cause-analysis section. -/
structure RootCauseAnalysis where
  primary_cause : String
  contributing_factors : List String
  failure_point : String
  logs_analysis : String
  technical_details : String
  why_analysis : List String
deriving Repr, DecidableEq

/-- `_generate_root_cause_analysis`. -/
def generateRootCauseAnalysis (inc : RetroIncident) : RootCauseAnalysis :=
  { primary_cause := inc.root_cause.getD "Investigation ongoing"
    contributing_factors := inc.contributing_factors.getD []
    failure_point := inc.failure_point.getD "Unknown"
    logs_analysis := inc.logs_analysis.getD "No logs analysis available"
    technical_details := inc.technical_details.getD "No technical details provided"
    why_analysis := inc.five_whys.getD [] }

/-- One code-change entry of the resolution-actions section
(`kind` is the constant `"Pull Request"` `type` field). -/
structure CodeChange where
  kind : String
  title : String
  url : Option String
  status : String
  files_changed : Int
  additions : Int
  deletions : Int
deriving Repr, DecidableEq

/-- One documentation entry of the resolution-actions section. -/
structure DocRef where
  kind : String
  title : String
  url : Option String
  created_at : Option String
deriving Repr, DecidableEq

/-- The resolution-actions section. -/
structure ResolutionActions where
  immediate_actions : List String
  manual_steps : List String
  code_changes : List CodeChange
  documentation : List DocRef
  preventive_measures : List String
deriving Repr, DecidableEq

/-- `_generate_resolution_actions`. -/
def generateResolutionActions (pr : Option PRDetails) (conf : Option ConfDetails)
    (inc : RetroIncident) : ResolutionActions :=
  { immediate_actions := inc.immediate_actions.getD []
    manual_steps := inc.manual_steps.getD []
    code_changes :=
      match pr with
      | none => []
      | some p =>
        [{ kind := "Pull Request"
           title := p.title.getD "N/A"
           url := p.html_url
           status := if pyTruthy p.merged_at then "Merged" else "Open"
           files_changed := p.changed_files.getD 0
           additions := p.additions.getD 0
           deletions := p.deletions.getD 0 }]
    documentation :=
      match conf with
      | none => []
      | some c =>
        [{ kind := "Confluence Page"
           title := c.title.getD "N/A"
           url := c.url
           created_at := c.created_at }]
    preventive_measures := inc.preventive_measures.getD [] }

/-- The impact-assessment section. -/
structure ImpactAssessment where
  duration_minutes : Int
  duration_hours_x100 : Int
  affected_systems : List String
  affected_users_count : Int
  business_impact : String
  financial_impact : String
  customer_complaints : Int
  sla_breach : Bool
  impact_level : String
deriving Repr, DecidableEq

/-- `_generate_impact_assessment`. -/
def generateImpactAssessment (inc : RetroIncident) (m : Metrics) : ImpactAssessment :=
  { duration_minutes := m.total_incident_duration_minutes.getD 0
    duration_hours_x100 := m.total_incident_duration_hours_x100.getD 0
    affected_systems := inc.affected_systems.getD []
    affected_users_count := inc.affected_users_count.getD 0
    business_impact := inc.business_impact.getD "Unknown"
    financial_impact := inc.financial_impact.getD "Not calculated"
    customer_complaints := inc.customer_complaints.getD 0
    sla_breach := inc.sla_breach.getD false
    impact_level := inc.impact_level.getD "Unknown" }

/-- The response-team section; the two Slack keys exist only when Slack
details were supplied. -/
structure ResponseTeam where
  incident_commander : Option String
  assigned_engineers : List String
  escalated_to : List String
  external_contacts : List String
  slack_participants : Option (List String)
  slack_channel : Option (Option String)
deriving Repr, DecidableEq

/-- `_extract_response_team`. `list(set(participants))` is modelled as
duplicate removal (Python's set iteration order is unspecified). -/
def extractResponseTeam (inc : RetroIncident) (slack : Option SlackDetails) : ResponseTeam :=
  { incident_commander := inc.incident_commander
    assigned_engineers := inc.assigned_engineers.getD []
    escalated_to := inc.escalated_to.getD []
    external_contacts := inc.external_contacts.getD []
    slack_participants :=
      match slack with
      | some sl => some (sl.participants.getD []).dedup
      | none => none
    slack_channel :=
      match slack with
      | some sl => some sl.channel
      | none => none }

/-- The lessons-learned section. -/
structure LessonsLearned where
  what_went_well : List String
  what_could_be_improved : List String
  action_items : List String
  prevention_recommendations : List String
  process_improvements : List String
  monitoring_enhancements : List String
  training_needs : List String
deriving Repr, DecidableEq

/-- `_generate_lessons_learned`. -/
def generateLessonsLearned (inc : RetroIncident) : LessonsLearned :=
  { what_went_well := inc.what_went_well.getD []
    what_could_be_improved := inc.what_could_be_improved.getD []
    action_items := inc.action_items.getD []
    prevention_recommendations := inc.prevention_recommendations.getD []
    process_improvements := inc.process_improvements.getD []
    monitoring_enhancements := inc.monitoring_enhancements.getD []
    training_needs := inc.training_needs.getD [] }

/-- One external reference of the technical appendix. -/
inductive ExternalRef where
  | githubPR (url : String) (title : String)
  | confluencePage (url : String) (title : String)
  | slackChannel (channel : String) (message_count : Nat)
deriving Repr, DecidableEq

/-- The technical-appendix section. -/
structure TechnicalAppendix where
  error_logs : List String
  system_metrics : List (String × String)
  configuration_changes : List String
  monitoring_alerts : List String
  external_references : List ExternalRef
deriving Repr, DecidableEq

/-- `_generate_technical_appendix`. -/
def generateTechnicalAppendix (inc : RetroIncident) (pr : Option PRDetails)
    (conf : Option ConfDetails) (slack : Option SlackDetails) : TechnicalAppendix :=
  { error_logs := inc.error_logs.getD []
    system_metrics := inc.system_metrics.getD []
    configuration_changes := inc.configuration_changes.getD []
    monitoring_alerts := inc.monitoring_alerts.getD []
    external_references :=
      (match pr with
       | some p =>
         match p.html_url with
         | some u => if u.isEmpty then [] else [ExternalRef.githubPR u (p.title.getD "Fix PR")]
         | none => []
       | none => []) ++
      (match conf with
       | some c =>
         match c.url with
         | some u => if u.isEmpty then [] else [ExternalRef.confluencePage u (c.title.getD "Incident Documentation")]
         | none => []
       | none => []) ++
      (match slack with
       | some sl =>
         match sl.channel with
         | some ch => if ch.isEmpty then [] else [ExternalRef.slackChannel ch (sl.messages.getD []).length]
         | none => []
       | none => []) }

/-- One timeline event; `url` is `some ...` only for events whose source
dict carries a `url` key. -/
structure TimelineEvent where
  timestamp : String
  event : String
  description : String
  source : String
  url : Option (Option String)
deriving Repr, DecidableEq

/-- Stable ascending insertion by the event's own timestamp string. -/
def insertAscByTs (x : TimelineEvent) : List TimelineEvent → List TimelineEvent
  | [] => [x]
  | y :: ys =>
    if strLtB x.timestamp y.timestamp then x :: y :: ys
    else y :: insertAscByTs x ys

/-- `timeline.sort(key=timestamp)`: Python's stable sort by the
timestamp string. -/
def sortTimeline (l : List TimelineEvent) : List TimelineEvent :=
  l.foldl (fun acc x => insertAscByTs x acc) []

/-- `_generate_timeline`. -/
def generateTimeline (inc : RetroIncident) (pr : Option PRDetails)
    (conf : Option ConfDetails) (slack : Option SlackDetails) : List TimelineEvent :=
  let _ := slack
  let events :=
    (if pyTruthy inc.created_at then
      [{ timestamp := inc.created_at.getD ""
         event := "Incident Created"
         description := "Incident " ++ pyStr inc.incident_id ++ " was created"
         source := "incident_system"
         url := none : TimelineEvent }]
     else []) ++
    (if pyTruthy inc.first_response_at then
      [{ timestamp := inc.first_response_at.getD ""
         event := "First Response"
         description := "Initial response to incident"
         source := "incident_system"
         url := none : TimelineEvent }]
     else []) ++
    (match pr with
     | none => []
     | some p =>
       (if pyTruthy p.created_at then
         [{ timestamp := p.created_at.getD ""
            event := "Fix PR Created"
            description := "PR " ++ p.number.getD "N/A" ++ " created: " ++ p.title.getD "N/A"
            source := "github"
            url := some p.html_url : TimelineEvent }]
        else []) ++
       (if pyTruthy p.merged_at then
         [{ timestamp := p.merged_at.getD ""
            event := "Fix PR Merged"
            description := "PR " ++ p.number.getD "N/A" ++ " merged"
            source := "github"
            url := some p.html_url : TimelineEvent }]
        else [])) ++
    (match conf with
     | none => []
     | some c =>
       if pyTruthy c.created_at then
         [{ timestamp := c.created_at.getD ""
            event := "Documentation Created"
            description := "Confluence page created: " ++ c.title.getD "N/A"
            source := "confluence"
            url := some c.url : TimelineEvent }]
       else []) ++
    (if pyTruthy inc.resolved_at then
      [{ timestamp := inc.resolved_at.getD ""
         event := "Incident Resolved"
         description := "Incident marked as resolved"
         source := "incident_system"
         url := none : TimelineEvent }]
     else [])
  sortTimeline events

/-- The report metadata block; `reportStamp` is the
`datetime.now().strftime('%Y%m%d-%H%M%S')` sample and `genTs` the
`datetime.now().isoformat()` sample of `_run`. -/
structure ReportMetadata where
  report_id : String
  generation_timestamp : String
  incident_id : String
  report_version : String
deriving Repr, DecidableEq

/-- The complete retrospective report assembled by `_run`. -/
structure RetroReport where
  report_metadata : ReportMetadata
  executive_summary : ExecutiveSummary
  incident_details : IncidentDetails
  timeline_events : List TimelineEvent
  root_cause_analysis : RootCauseAnalysis
  resolution_actions : ResolutionActions
  impact_assessment : ImpactAssessment
  response_team : ResponseTeam
  lessons_learned : LessonsLearned
  technical_appendix : TechnicalAppendix
  key_metrics : Metrics
deriving Repr, DecidableEq

/-- `_run` of the retrospective generator (lines 37-77). -/
def buildReport (inc : RetroIncident) (pr : Option PRDetails) (conf : Option ConfDetails)
    (slack : Option SlackDetails) (reportStamp genTs : String) : RetroReport :=
  let metrics := calcMetrics inc pr conf slack
  { report_metadata :=
      { report_id := "INC-RETRO-" ++ reportStamp
        generation_timestamp := genTs
        incident_id := inc.incident_id.getD "N/A"
        report_version := "1.0" }
    executive_summary := generateExecutiveSummary inc metrics
    incident_details := extractIncidentDetails inc
    timeline_events := generateTimeline inc pr conf slack
    root_cause_analysis := generateRootCauseAnalysis inc
    resolution_actions := generateResolutionActions pr conf inc
    impact_assessment := generateImpactAssessment inc metrics
    response_team := extractResponseTeam inc slack
    lessons_learned := generateLessonsLearned inc
    technical_appendix := generateTechnicalAppendix inc pr conf slack
    key_metrics := metrics }

end Retro

namespace IncidentDB

/-- A sample stored record used by concrete counterexamples. -/
def sampleRecord : IncidentRecord :=
  { incident_id := "INC-1"
    service_name := "payments"
    severity := "High"
    status := "Open"
    timestamp := "2025-01-01T00:00:00"
    commander := none
    communication_lead := none
    playbook_applied := none
    timeline := none
    resolution_details := none
    created_at := "2025-01-01T00:00:00"
    last_updated := "2025-01-01T00:00:01" }

/-- A database state holding `sampleRecord`, mirrored to the file. -/
def sampleState : DbState :=
  ⟨[("INC-1", sampleRecord)], [("INC-1", sampleRecord)]⟩

/-- Sample request fields with a valid service/severity/status triple. -/
def sampleCreateFields : Fields :=
  { Fields.empty with
    service_name := some "payments", severity := some "High", status := some "Open" }

end IncidentDB

/-! ## Theorems -/

namespace IncidentDB

theorem loadIfEmpty_file (st : DbState) : (loadIfEmpty st).file = st.file := by
  unfold loadIfEmpty
  split <;> rfl

theorem loadIfEmpty_fix (x : Store) : loadIfEmpty ⟨x, x⟩ = ⟨x, x⟩ := by
  unfold loadIfEmpty
  split <;> rfl

theorem find?_insert (s : Store) (k : String) (v : IncidentRecord) :
    Store.find? (Store.insert s k v) k = some v := by
  induction s with
  | nil => simp [Store.insert, Store.find?]
  | cons p t ih =>
    obtain ⟨k', v'⟩ := p
    by_cases hp : k' = k
    · simp [Store.insert, Store.find?, hp]
    · simp [Store.insert, Store.find?, hp, ih]

theorem insert_keys_set (s : Store) (k : String) (v : IncidentRecord) :
    Store.keys (Store.insert s k v) =
      if k ∈ Store.keys s then Store.keys s else Store.keys s ++ [k] := by
  induction s with
  | nil => simp [Store.insert, Store.keys]
  | cons p t ih =>
    obtain ⟨k', v'⟩ := p
    by_cases hp : k' = k
    · simp [Store.insert, Store.keys, hp]
    · have hne : ¬k = k' := fun h => hp h.symm
      simp only [Store.insert, if_neg hp, Store.keys, List.map_cons]
      simp only [Store.keys] at ih
      rw [ih]
      by_cases hm : k ∈ List.map Prod.fst t
      · simp [hm, hne]
      · simp [hm, hne]

theorem insert_keys_nodup (s : Store) (k : String) (v : IncidentRecord)
    (h : (Store.keys s).Nodup) : (Store.keys (Store.insert s k v)).Nodup := by
  rw [insert_keys_set]
  split
  · exact h
  · rename_i hmem
    rw [List.nodup_append]
    refine ⟨h, List.nodup_singleton k, ?_⟩
    intro a ha hb
    simp only [List.mem_singleton] at hb
    subst hb
    exact hmem ha

theorem insert_ne_nil (s : Store) (k : String) (v : IncidentRecord) :
    Store.insert s k v ≠ [] := by
  cases s with
  | nil => simp [Store.insert]
  | cons p t =>
    obtain ⟨k', v'⟩ := p
    by_cases hp : k' = k
    · simp [Store.insert, hp]
    · simp [Store.insert, hp]

theorem find?_erase (s : Store) (k : String) :
    Store.find? (Store.erase s k) k = none := by
  induction s with
  | nil => rfl
  | cons p t ih =>
    obtain ⟨k', v'⟩ := p
    by_cases hp : k' = k
    · simpa [Store.erase, hp] using ih
    · simpa [Store.erase, Store.find?, hp] using ih

theorem erase_not_mem_keys (s : Store) (k : String) :
    k ∉ Store.keys (Store.erase s k) := by
  induction s with
  | nil => simp [Store.erase, Store.keys]
  | cons p t ih =>
    obtain ⟨k', v'⟩ := p
    by_cases hp : k' = k
    · simpa [Store.erase, hp] using ih
    · simp only [Store.erase, if_neg hp, Store.keys, List.map_cons, List.mem_cons]
      intro hc
      rcases hc with hc | hc
      · exact hp hc.symm
      · exact ih hc

theorem isEmpty_false_of_ne (s : String) (h : s ≠ "") : s.isEmpty = false := by
  cases he : s.isEmpty
  · rfl
  · exact absurd ((String.isEmpty_iff s).mp he) h

theorem generateIncidentId_not_empty (g : Nat) : (generateIncidentId g).isEmpty = false := by
  apply isEmpty_false_of_ne
  unfold generateIncidentId
  intro h
  have hd := congrArg String.data h
  rw [String.data_append] at hd
  have h4 : "INC-".data = ['I', 'N', 'C', '-'] := rfl
  rw [h4] at hd
  simp at hd

theorem chooseIncidentId_not_empty (p : Option String) (g : Nat) :
    (chooseIncidentId p g).isEmpty = false := by
  unfold chooseIncidentId
  match p with
  | none => exact generateIncidentId_not_empty g
  | some i =>
    by_cases hi : i.isEmpty
    · simp [hi, generateIncidentId_not_empty g]
    · by_cases hm : matchesIncFormat i
      · simp [hi, hm]
      · simp [hi, hm, generateIncidentId_not_empty g]

theorem read_after_insert (S : Store) (id : String) (rec : IncidentRecord)
    (hid : id.isEmpty = false) :
    readIncident ⟨Store.insert S id rec, Store.insert S id rec⟩ (some id) =
      (DbResult.readOk rec, ⟨Store.insert S id rec, Store.insert S id rec⟩) := by
  unfold readIncident
  rw [loadIfEmpty_fix]
  simp [pyTruthy, hid, find?_insert]

theorem createIncident_ok (st : DbState) (f : Fields) (genMs : Nat)
    (tsNow createdNow updatedNow : String) (s : String)
    (hs : f.service_name = some s) (hsE : s.isEmpty = false) :
    createIncident st f genMs tsNow createdNow updatedNow =
      (DbResult.createOk
        ("Incident \x27" ++ chooseIncidentId f.incident_id genMs ++ "\x27 created successfully")
        (newIncidentRecord f (chooseIncidentId f.incident_id genMs) tsNow createdNow updatedNow),
       ⟨Store.insert (loadIfEmpty st).store (chooseIncidentId f.incident_id genMs)
          (newIncidentRecord f (chooseIncidentId f.incident_id genMs) tsNow createdNow updatedNow),
        Store.insert (loadIfEmpty st).store (chooseIncidentId f.incident_id genMs)
          (newIncidentRecord f (chooseIncidentId f.incident_id genMs) tsNow createdNow updatedNow)⟩) := by
  unfold createIncident
  simp [hs, pyTruthy, hsE, saveToFile]

/-- C7: a create call whose `service_name` is null fails with the
validation error naming `service_name` as required, and neither the
(lazily loaded) in-memory store nor the mirror file gains or changes any
record: the result state is exactly the lazily-loaded input state, whose
file equals the input file and whose store content is the input store
(or the file content it was loaded from when the store was empty). -/
theorem create_missing_service_rejected (st : DbState) (f : Fields) (genMs : Nat)
    (tsNow createdNow updatedNow : String) (h : f.service_name = none) :
    createIncident st f genMs tsNow createdNow updatedNow =
      (DbResult.validationError "service_name is required for creating an incident",
        loadIfEmpty st) ∧
    (loadIfEmpty st).file = st.file ∧
    (loadIfEmpty st).store = (if st.store.isEmpty then st.file else st.store) := by
  refine ⟨?_, loadIfEmpty_file st, ?_⟩
  · unfold createIncident
    simp [h, pyTruthy]
  · unfold loadIfEmpty
    split <;> simp_all

/-- Witness for C7 at a concrete state and all-null fields. -/
theorem create_missing_service_rejected_w :
    Fields.empty.service_name = none ∧
    createIncident sampleState Fields.empty 5 "t" "c" "u" =
      (DbResult.validationError "service_name is required for creating an incident",
        loadIfEmpty sampleState) :=
  ⟨rfl, (create_missing_service_rejected sampleState Fields.empty 5 "t" "c" "u" rfl).1⟩

/-- C2 counterexample: `created_at` and `last_updated` come from two
distinct consecutive `datetime.now()` calls (source lines 215-216), so
on a run where the clock advances between them the freshly created and
re-read record has `created_at ≠ last_updated`, contradicting the
claimed equality. -/
theorem create_read_clock_cex :
    (readIncident
        (createIncident ⟨[], []⟩ sampleCreateFields 1000 "T"
          "2025-01-01T00:00:00.000001" "2025-01-01T00:00:00.000002").2
        (some "INC-1000")).1 =
      DbResult.readOk
        { incident_id := "INC-1000", service_name := "payments", severity := "High",
          status := "Open", timestamp := "T", commander := none, communication_lead := none,
          playbook_applied := none, timeline := none, resolution_details := none,
          created_at := "2025-01-01T00:00:00.000001",
          last_updated := "2025-01-01T00:00:00.000002" } ∧
    ("2025-01-01T00:00:00.000001" : String) ≠ "2025-01-01T00:00:00.000002" := by
  refine ⟨by decide, by decide⟩

/-- C2 (amended): for every create call with non-empty
`service_name`/`severity`/`status`, an immediate read of the returned ID
succeeds and yields a record whose `service_name`, `severity` and
`status` equal the inputs; its `created_at` and `last_updated` are the
two consecutive clock samples taken at creation, so they are equal
exactly when the clock reads the same value for both calls (not
unconditionally, as the two `datetime.now()` calls are distinct). -/
theorem create_then_read_roundtrip (st : DbState) (f : Fields) (genMs : Nat)
    (tsNow createdNow updatedNow : String) (s sev stat : String)
    (hs : f.service_name = some s) (hs' : s ≠ "")
    (hsev : f.severity = some sev) (hsev' : sev ≠ "")
    (hstat : f.status = some stat) (hstat' : stat ≠ "") :
    (createIncident st f genMs tsNow createdNow updatedNow).1 =
      DbResult.createOk
        ("Incident \x27" ++ chooseIncidentId f.incident_id genMs ++ "\x27 created successfully")
        (newIncidentRecord f (chooseIncidentId f.incident_id genMs) tsNow createdNow updatedNow) ∧
    readIncident (createIncident st f genMs tsNow createdNow updatedNow).2
        (some (newIncidentRecord f (chooseIncidentId f.incident_id genMs) tsNow createdNow
          updatedNow).incident_id) =
      (DbResult.readOk
        (newIncidentRecord f (chooseIncidentId f.incident_id genMs) tsNow createdNow updatedNow),
       (createIncident st f genMs tsNow createdNow updatedNow).2) ∧
    (newIncidentRecord f (chooseIncidentId f.incident_id genMs) tsNow createdNow
      updatedNow).service_name = s ∧
    (newIncidentRecord f (chooseIncidentId f.incident_id genMs) tsNow createdNow
      updatedNow).severity = sev ∧
    (newIncidentRecord f (chooseIncidentId f.incident_id genMs) tsNow createdNow
      updatedNow).status = stat ∧
    (newIncidentRecord f (chooseIncidentId f.incident_id genMs) tsNow createdNow
      updatedNow).created_at = createdNow ∧
    (newIncidentRecord f (chooseIncidentId f.incident_id genMs) tsNow createdNow
      updatedNow).last_updated = updatedNow ∧
    ((newIncidentRecord f (chooseIncidentId f.incident_id genMs) tsNow createdNow
        updatedNow).created_at =
      (newIncidentRecord f (chooseIncidentId f.incident_id genMs) tsNow createdNow
        updatedNow).last_updated ↔ createdNow = updatedNow) := by
  have hsE := isEmpty_false_of_ne s hs'
  have hmain := createIncident_ok st f genMs tsNow createdNow updatedNow s hs hsE
  refine ⟨by rw [hmain], ?_, by simp [newIncidentRecord, hs], ?_, ?_, rfl, rfl, Iff.rfl⟩
  · rw [hmain]
    exact read_after_insert (loadIfEmpty st).store (chooseIncidentId f.incident_id genMs)
      (newIncidentRecord f (chooseIncidentId f.incident_id genMs) tsNow createdNow updatedNow)
      (chooseIncidentId_not_empty f.incident_id genMs)
  · simp [newIncidentRecord, hsev, pyOr, isEmpty_false_of_ne sev hsev']
  · simp [newIncidentRecord, hstat, pyOr, isEmpty_false_of_ne stat hstat']

/-- Witness for C2 (amended) at a concrete valid triple: the create/read
round trip succeeds and returns the stored record. -/
theorem create_then_read_roundtrip_w :
    readIncident (createIncident sampleState sampleCreateFields 1000 "T" "C" "U").2
        (some (newIncidentRecord sampleCreateFields
          (chooseIncidentId sampleCreateFields.incident_id 1000) "T" "C" "U").incident_id) =
      (DbResult.readOk (newIncidentRecord sampleCreateFields
          (chooseIncidentId sampleCreateFields.incident_id 1000) "T" "C" "U"),
       (createIncident sampleState sampleCreateFields 1000 "T" "C" "U").2) :=
  (create_then_read_roundtrip sampleState sampleCreateFields 1000 "T" "C" "U"
    "payments" "High" "Open" rfl (by decide) rfl (by decide) rfl (by decide)).2.1

/-- C3 counterexample: the supplied ID `"INC-7\n"` does not match the
format `INC-\d+` read as a complete match (it carries a trailing
newline), yet the create call keeps it verbatim instead of generating
`INC-<millis>`: Python's `re.match(r'^INC-\d+$', ...)` accepts a single
trailing newline before `$`. -/
theorem create_malformed_id_cex :
    specIncFormat "INC-7\n" = false ∧
    (createIncident ⟨[], []⟩
        { Fields.empty with incident_id := some "INC-7\n", service_name := some "svc" }
        123 "T" "C" "U").1 =
      DbResult.createOk "Incident \x27INC-7\n\x27 created successfully"
        { incident_id := "INC-7\n", service_name := "svc", severity := "Medium",
          status := "Open", timestamp := "T", commander := none, communication_lead := none,
          playbook_applied := none, timeline := none, resolution_details := none,
          created_at := "C", last_updated := "U" } ∧
    ("INC-7\n" : String) ≠ generateIncidentId 123 := by
  refine ⟨by decide, by decide, by decide⟩

/-- C3 (amended): a create call keeps the supplied ID only when it is
truthy and matches Python's `re.match(r'^INC-\d+$', ...)` semantics
(`INC-` plus digits, optionally followed by one trailing newline);
otherwise — in particular when the ID is absent or empty — it uses the
fresh `INC-<current unix milliseconds>` ID. An existing ID is silently
overwritten: the create succeeds, the store maps the used ID to exactly
the new record, and key uniqueness is preserved. -/
theorem create_id_rules (st : DbState) (f : Fields) (genMs : Nat)
    (tsNow createdNow updatedNow : String) (s : String)
    (hs : f.service_name = some s) (hs' : s ≠ "") :
    (createIncident st f genMs tsNow createdNow updatedNow).1 =
      DbResult.createOk
        ("Incident \x27" ++ chooseIncidentId f.incident_id genMs ++ "\x27 created successfully")
        (newIncidentRecord f (chooseIncidentId f.incident_id genMs) tsNow createdNow updatedNow) ∧
    (f.incident_id = none → chooseIncidentId f.incident_id genMs = generateIncidentId genMs) ∧
    (∀ i, f.incident_id = some i → (i = "" ∨ matchesIncFormat i = false) →
      chooseIncidentId f.incident_id genMs = generateIncidentId genMs) ∧
    (∀ i, f.incident_id = some i → i ≠ "" → matchesIncFormat i = true →
      chooseIncidentId f.incident_id genMs = i) ∧
    Store.find? (createIncident st f genMs tsNow createdNow updatedNow).2.store
        (chooseIncidentId f.incident_id genMs) =
      some (newIncidentRecord f (chooseIncidentId f.incident_id genMs) tsNow createdNow
        updatedNow) ∧
    ((Store.keys (loadIfEmpty st).store).Nodup →
      (Store.keys (createIncident st f genMs tsNow createdNow updatedNow).2.store).Nodup) := by
  have hsE := isEmpty_false_of_ne s hs'
  have hmain := createIncident_ok st f genMs tsNow createdNow updatedNow s hs hsE
  refine ⟨by rw [hmain], ?_, ?_, ?_, ?_, ?_⟩
  · intro hnone
    simp [chooseIncidentId, hnone]
  · intro i hi hbad
    rcases hbad with hbad | hbad
    · have he : ("" : String).isEmpty = true := rfl
      simp [chooseIncidentId, hi, hbad, he]
    · by_cases hie : i.isEmpty
      · simp [chooseIncidentId, hi, hie]
      · simp [chooseIncidentId, hi, hie, hbad]
  · intro i hi hne hm
    have hie := isEmpty_false_of_ne i hne
    simp [chooseIncidentId, hi, hie, hm]
  · rw [hmain]
    exact find?_insert _ _ _
  · intro hnd
    rw [hmain]
    exact insert_keys_nodup _ _ _ hnd

/-- Witness for C3 (amended): with an absent ID and millisecond sample
123 the created record is stored under the fresh ID `INC-123`. -/
theorem create_id_rules_w :
    chooseIncidentId sampleCreateFields.incident_id 123 = generateIncidentId 123 ∧
    Store.find? (createIncident sampleState sampleCreateFields 123 "T" "C" "U").2.store
        (chooseIncidentId sampleCreateFields.incident_id 123) =
      some (newIncidentRecord sampleCreateFields
        (chooseIncidentId sampleCreateFields.incident_id 123) "T" "C" "U") :=
  ⟨(create_id_rules sampleState sampleCreateFields 123 "T" "C" "U" "payments"
      rfl (by decide)).2.1 rfl,
   (create_id_rules sampleState sampleCreateFields 123 "T" "C" "U" "payments"
      rfl (by decide)).2.2.2.2.1⟩

/-- C1 counterexample: an update call with every optional field null on
an existing incident does return the no-op error and leaves the mirror
file untouched, but the stored in-memory record is NOT byte-for-byte
identical afterwards: its `last_updated` is refreshed, because line 322
mutates the aliased record before the `if not updates` check on line
324. -/
theorem update_noop_mutates_cex :
    (updateIncident sampleState { Fields.empty with incident_id := some "INC-1" }
        "2025-01-01T00:00:02").1 =
      DbResult.noOp "No fields provided for update. At least one field must be specified."
        { sampleRecord with last_updated := "2025-01-01T00:00:02" } ∧
    Store.find?
        (updateIncident sampleState { Fields.empty with incident_id := some "INC-1" }
          "2025-01-01T00:00:02").2.store "INC-1" =
      some { sampleRecord with last_updated := "2025-01-01T00:00:02" } ∧
    ({ sampleRecord with last_updated := "2025-01-01T00:00:02" } : IncidentRecord) ≠
      sampleRecord ∧
    (updateIncident sampleState { Fields.empty with incident_id := some "INC-1" }
        "2025-01-01T00:00:02").2.file = sampleState.file := by
  refine ⟨by decide, by decide, by decide, by decide⟩

/-- C1 (amended): an update call in which every one of the ten optional
fields is null returns the NoOp error (a structured failure stating that
no fields were provided) and does not rewrite the mirror file, but the
in-memory stored record is mutated: its `last_updated` is refreshed to
the current clock sample (all other fields are unchanged). -/
theorem update_noop_behavior (st : DbState) (f : Fields) (id : String)
    (r : IncidentRecord) (updatedNow : String)
    (hid : f.incident_id = some id) (hid' : id ≠ "")
    (hfind : Store.find? (loadIfEmpty st).store id = some r)
    (h1 : f.service_name = none) (h2 : f.severity = none) (h3 : f.status = none)
    (h4 : f.timestamp = none) (h5 : f.commander = none) (h6 : f.communication_lead = none)
    (h7 : f.playbook_applied = none) (h8 : f.timeline = none)
    (h9 : f.resolution_details = none) :
    updateIncident st f updatedNow =
      (DbResult.noOp "No fields provided for update. At least one field must be specified."
        { r with last_updated := updatedNow },
       { store := Store.insert (loadIfEmpty st).store id { r with last_updated := updatedNow },
         file := st.file }) := by
  have hidE := isEmpty_false_of_ne id hid'
  unfold updateIncident
  simp [hid, pyTruthy, hidE, hfind, applyUpdates, h1, h2, h3, h4, h5, h6, h7, h8, h9,
    loadIfEmpty_file]

/-- Witness for C1 (amended) at a concrete stored incident. -/
theorem update_noop_behavior_w :
    updateIncident sampleState { Fields.empty with incident_id := some "INC-1" } "X" =
      (DbResult.noOp "No fields provided for update. At least one field must be specified."
        { sampleRecord with last_updated := "X" },
       { store := Store.insert (loadIfEmpty sampleState).store "INC-1"
           { sampleRecord with last_updated := "X" },
         file := sampleState.file }) :=
  update_noop_behavior sampleState { Fields.empty with incident_id := some "INC-1" }
    "INC-1" sampleRecord "X" rfl (by decide) (by decide)
    rfl rfl rfl rfl rfl rfl rfl rfl rfl

/-- C4: updating an existing incident with only `status := "Resolved"`
succeeds, and a following read shows `status == "Resolved"` and a
`last_updated` equal to the new clock sample — strictly greater than the
pre-update value whenever the clock advanced — while `incident_id`,
`service_name`, `severity`, `timestamp`, `commander`,
`communication_lead`, `playbook_applied`, `timeline`,
`resolution_details` and `created_at` are all unchanged. -/
theorem update_resolved_frame (st : DbState) (f : Fields) (id : String)
    (r : IncidentRecord) (updatedNow : String)
    (hid : f.incident_id = some id) (hid' : id ≠ "")
    (hstat : f.status = some "Resolved")
    (h1 : f.service_name = none) (h2 : f.severity = none)
    (h4 : f.timestamp = none) (h5 : f.commander = none) (h6 : f.communication_lead = none)
    (h7 : f.playbook_applied = none) (h8 : f.timeline = none)
    (h9 : f.resolution_details = none)
    (hfind : Store.find? (loadIfEmpty st).store id = some r)
    (hclock : strLtB r.last_updated updatedNow = true) :
    updateIncident st f updatedNow =
      (DbResult.updateOk ("Incident \x27" ++ id ++ "\x27 updated successfully") ["status"]
          { r with status := "Resolved", last_updated := updatedNow },
       ⟨Store.insert (loadIfEmpty st).store id
          { r with status := "Resolved", last_updated := updatedNow },
        Store.insert (loadIfEmpty st).store id
          { r with status := "Resolved", last_updated := updatedNow }⟩) ∧
    (readIncident (updateIncident st f updatedNow).2 (some id)).1 =
      DbResult.readOk { r with status := "Resolved", last_updated := updatedNow } ∧
    ({ r with status := "Resolved", last_updated := updatedNow } : IncidentRecord).status =
      "Resolved" ∧
    strLtB r.last_updated
      ({ r with status := "Resolved", last_updated := updatedNow } : IncidentRecord).last_updated
      = true ∧
    ({ r with status := "Resolved", last_updated := updatedNow } : IncidentRecord).incident_id =
      r.incident_id ∧
    ({ r with status := "Resolved", last_updated := updatedNow } : IncidentRecord).service_name =
      r.service_name ∧
    ({ r with status := "Resolved", last_updated := updatedNow } : IncidentRecord).severity =
      r.severity ∧
    ({ r with status := "Resolved", last_updated := updatedNow } : IncidentRecord).timestamp =
      r.timestamp ∧
    ({ r with status := "Resolved", last_updated := updatedNow } : IncidentRecord).commander =
      r.commander ∧
    ({ r with status := "Resolved", last_updated := updatedNow } :
      IncidentRecord).communication_lead = r.communication_lead ∧
    ({ r with status := "Resolved", last_updated := updatedNow } :
      IncidentRecord).playbook_applied = r.playbook_applied ∧
    ({ r with status := "Resolved", last_updated := updatedNow } : IncidentRecord).timeline =
      r.timeline ∧
    ({ r with status := "Resolved", last_updated := updatedNow } :
      IncidentRecord).resolution_details = r.resolution_details ∧
    ({ r with status := "Resolved", last_updated := updatedNow } : IncidentRecord).created_at =
      r.created_at := by
  have hidE := isEmpty_false_of_ne id hid'
  have hmain : updateIncident st f updatedNow =
      (DbResult.updateOk ("Incident \x27" ++ id ++ "\x27 updated successfully") ["status"]
          { r with status := "Resolved", last_updated := updatedNow },
       ⟨Store.insert (loadIfEmpty st).store id
          { r with status := "Resolved", last_updated := updatedNow },
        Store.insert (loadIfEmpty st).store id
          { r with status := "Resolved", last_updated := updatedNow }⟩) := by
    unfold updateIncident
    simp [hid, pyTruthy, hidE, hfind, applyUpdates, h1, h2, hstat, h4, h5, h6, h7, h8, h9,
      saveToFile]
  refine ⟨hmain, ?_, rfl, hclock, rfl, rfl, rfl, rfl, rfl, rfl, rfl, rfl, rfl, rfl⟩
  rw [hmain]
  have := read_after_insert (loadIfEmpty st).store id
    { r with status := "Resolved", last_updated := updatedNow } hidE
  rw [this]

/-- Witness for C4 at a concrete stored incident with an advancing
clock sample. -/
theorem update_resolved_frame_w :
    strLtB sampleRecord.last_updated "2025-01-01T00:00:02" = true ∧
    (readIncident
        (updateIncident sampleState
          { Fields.empty with incident_id := some "INC-1", status := some "Resolved" }
          "2025-01-01T00:00:02").2 (some "INC-1")).1 =
      DbResult.readOk
        { sampleRecord with status := "Resolved", last_updated := "2025-01-01T00:00:02" } :=
  ⟨by decide,
   (update_resolved_frame sampleState
      { Fields.empty with incident_id := some "INC-1", status := some "Resolved" }
      "INC-1" sampleRecord "2025-01-01T00:00:02" rfl (by decide) rfl
      rfl rfl rfl rfl rfl rfl rfl rfl (by decide) (by decide)).2.1⟩

/-- C8: a read, update or delete whose truthy incident ID is not a key
of the (lazily loaded) store returns the NotFound error carrying the
list of all currently known incident IDs; and after a successful delete
a read of the same ID returns NotFound with an `available_incidents`
list that does not contain that ID. -/
theorem notfound_carries_ids :
    (∀ (st : DbState) (id : String), id ≠ "" →
      Store.find? (loadIfEmpty st).store id = none →
      readIncident st (some id) =
        (DbResult.notFound ("Incident with ID \x27" ++ id ++ "\x27 not found")
          (Store.keys (loadIfEmpty st).store), loadIfEmpty st)) ∧
    (∀ (st : DbState) (f : Fields) (id : String) (updatedNow : String),
      f.incident_id = some id → id ≠ "" →
      Store.find? (loadIfEmpty st).store id = none →
      updateIncident st f updatedNow =
        (DbResult.notFound ("Incident with ID \x27" ++ id ++ "\x27 not found")
          (Store.keys (loadIfEmpty st).store), loadIfEmpty st)) ∧
    (∀ (st : DbState) (id : String), id ≠ "" →
      Store.find? (loadIfEmpty st).store id = none →
      deleteIncident st (some id) =
        (DbResult.notFound ("Incident with ID \x27" ++ id ++ "\x27 not found")
          (Store.keys (loadIfEmpty st).store), loadIfEmpty st)) ∧
    (∀ (st : DbState) (id : String) (r : IncidentRecord), id ≠ "" →
      Store.find? (loadIfEmpty st).store id = some r →
      (readIncident (deleteIncident st (some id)).2 (some id)).1 =
        DbResult.notFound ("Incident with ID \x27" ++ id ++ "\x27 not found")
          (Store.keys (Store.erase (loadIfEmpty st).store id)) ∧
      id ∉ Store.keys (Store.erase (loadIfEmpty st).store id)) := by
  refine ⟨?_, ?_, ?_, ?_⟩
  · intro st id hne hnf
    have hidE := isEmpty_false_of_ne id hne
    unfold readIncident
    simp [pyTruthy, hidE, hnf]
  · intro st f id updatedNow hid hne hnf
    have hidE := isEmpty_false_of_ne id hne
    unfold updateIncident
    simp [hid, pyTruthy, hidE, hnf]
  · intro st id hne hnf
    have hidE := isEmpty_false_of_ne id hne
    unfold deleteIncident
    simp [pyTruthy, hidE, hnf]
  · intro st id r hne hfind
    have hidE := isEmpty_false_of_ne id hne
    have hdel : (deleteIncident st (some id)).2 =
        ⟨Store.erase (loadIfEmpty st).store id, Store.erase (loadIfEmpty st).store id⟩ := by
      unfold deleteIncident
      simp [pyTruthy, hidE, hfind, saveToFile]
    constructor
    · rw [hdel]
      unfold readIncident
      rw [loadIfEmpty_fix]
      simp [pyTruthy, hidE, find?_erase]
    · exact erase_not_mem_keys _ _

/-- Witness for C8: a read of a missing ID on a concrete state, and a
delete-then-read on a concrete stored incident. -/
theorem notfound_carries_ids_w :
    readIncident sampleState (some "INC-9") =
      (DbResult.notFound "Incident with ID \x27INC-9\x27 not found"
        (Store.keys (loadIfEmpty sampleState).store), loadIfEmpty sampleState) ∧
    (readIncident (deleteIncident sampleState (some "INC-1")).2 (some "INC-1")).1 =
      DbResult.notFound "Incident with ID \x27INC-1\x27 not found"
        (Store.keys (Store.erase (loadIfEmpty sampleState).store "INC-1")) ∧
    "INC-1" ∉ Store.keys (Store.erase (loadIfEmpty sampleState).store "INC-1") :=
  ⟨notfound_carries_ids.1 sampleState "INC-9" (by decide) (by decide),
   (notfound_carries_ids.2.2.2 sampleState "INC-1" sampleRecord (by decide) (by decide)).1,
   (notfound_carries_ids.2.2.2 sampleState "INC-1" sampleRecord (by decide) (by decide)).2⟩

/-- C10: the operation name is normalized with `.lower().strip()`
before dispatch — `"CREATE"` dispatches exactly like `"create"` and
`" Update "` like `"update"` — and any normalized operation outside
create/read/update/list/delete returns the structured failure naming
the supported operations while leaving the state (store and mirror
file) unchanged. -/
theorem run_dispatch_normalization :
    (∀ (f : Fields) (st : DbState) (genMs : Nat) (tsNow createdNow updatedNow : String),
      runOperation "CREATE" f st genMs tsNow createdNow updatedNow =
        createIncident st f genMs tsNow createdNow updatedNow) ∧
    (∀ (f : Fields) (st : DbState) (genMs : Nat) (tsNow createdNow updatedNow : String),
      runOperation " Update " f st genMs tsNow createdNow updatedNow =
        updateIncident st f updatedNow) ∧
    (∀ (op : String) (f : Fields) (st : DbState) (genMs : Nat)
      (tsNow createdNow updatedNow : String),
      pyStrip (pyLower op) ∉ (["create", "read", "update", "list", "delete"] : List String) →
      runOperation op f st genMs tsNow createdNow updatedNow =
        (DbResult.invalidOp ("Invalid operation \x27" ++ pyStrip (pyLower op) ++
          "\x27. Supported operations: create, read, update, list, delete"), st)) := by
  refine ⟨?_, ?_, ?_⟩
  · intro f st genMs tsNow createdNow updatedNow
    have h : pyStrip (pyLower "CREATE") = "create" := by decide
    unfold runOperation
    rw [h]
    simp
  · intro f st genMs tsNow createdNow updatedNow
    have h : pyStrip (pyLower " Update ") = "update" := by decide
    unfold runOperation
    rw [h]
    have h1 : ("update" : String) ≠ "create" := by decide
    have h2 : ("update" : String) ≠ "read" := by decide
    rw [if_neg h1, if_neg h2, if_pos rfl]
  · intro op f st genMs tsNow createdNow updatedNow h
    have h1 : ¬pyStrip (pyLower op) = "create" := fun e => h (by rw [e]; simp)
    have h2 : ¬pyStrip (pyLower op) = "read" := fun e => h (by rw [e]; simp)
    have h3 : ¬pyStrip (pyLower op) = "update" := fun e => h (by rw [e]; simp)
    have h4 : ¬pyStrip (pyLower op) = "list" := fun e => h (by rw [e]; simp)
    have h5 : ¬pyStrip (pyLower op) = "delete" := fun e => h (by rw [e]; simp)
    unfold runOperation
    rw [if_neg h1, if_neg h2, if_neg h3, if_neg h4, if_neg h5]

/-- Witness for C10: a concrete unsupported operation is rejected with
the state untouched, and the normalized aliases dispatch. -/
theorem run_dispatch_normalization_w :
    runOperation "CREATE" Fields.empty sampleState 7 "t" "c" "u" =
      createIncident sampleState Fields.empty 7 "t" "c" "u" ∧
    runOperation " drop table " Fields.empty sampleState 7 "t" "c" "u" =
      (DbResult.invalidOp ("Invalid operation \x27drop table\x27. " ++
        "Supported operations: create, read, update, list, delete"), sampleState) :=
  ⟨run_dispatch_normalization.1 Fields.empty sampleState 7 "t" "c" "u",
   by
    have h := run_dispatch_normalization.2.2 " drop table " Fields.empty sampleState 7
      "t" "c" "u" (by decide)
    rw [h]
    decide⟩

end IncidentDB

namespace Webhook

/-- C6: for every metric value and every threshold map (each key
defaulting to critical=90, high=70, medium=50, low=30 where not
overridden), the computed severity is P1 iff the metric is at least the
critical threshold, else P2 iff at least high, else P3 iff at least
medium, else P4; and `should_create_incident` is true iff the computed
severity is P1 or P2. -/
theorem calculateSeverity_cases (mv : ℚ) (t : Thresholds) :
    (calculateSeverity mv t = "P1" ↔ mv ≥ t.critical) ∧
    (calculateSeverity mv t = "P2" ↔ (¬mv ≥ t.critical ∧ mv ≥ t.high)) ∧
    (calculateSeverity mv t = "P3" ↔ (¬mv ≥ t.critical ∧ ¬mv ≥ t.high ∧ mv ≥ t.medium)) ∧
    (calculateSeverity mv t = "P4" ↔ (¬mv ≥ t.critical ∧ ¬mv ≥ t.high ∧ ¬mv ≥ t.medium)) := by
  have p12 : ("P1" : String) ≠ "P2" := by decide
  have p13 : ("P1" : String) ≠ "P3" := by decide
  have p14 : ("P1" : String) ≠ "P4" := by decide
  have p23 : ("P2" : String) ≠ "P3" := by decide
  have p24 : ("P2" : String) ≠ "P4" := by decide
  have p34 : ("P3" : String) ≠ "P4" := by decide
  by_cases hc : t.critical ≤ mv <;> by_cases hh : t.high ≤ mv <;> by_cases hm : t.medium ≤ mv <;>
    simp [calculateSeverity, hc, hh, hm, ge_iff_le, p12, p13, p14, p23, p24, p34,
      p12.symm, p13.symm, p14.symm, p23.symm, p24.symm, p34.symm]

/-- C6: for every metric value and every threshold map (each key
defaulting to critical=90, high=70, medium=50, low=30 where not
overridden), the computed severity is P1 iff the metric is at least the
critical threshold, else P2 iff at least high, else P3 iff at least
medium, else P4; and `should_create_incident` is true iff the computed
severity is P1 or P2. -/
theorem severity_thresholds_spec (mv : ℚ) (c h m l : Option ℚ) :
    ((severityStep mv (mergeThresholds c h m l)).1 = "P1" ↔
      mv ≥ (mergeThresholds c h m l).critical) ∧
    ((severityStep mv (mergeThresholds c h m l)).1 = "P2" ↔
      (¬mv ≥ (mergeThresholds c h m l).critical ∧ mv ≥ (mergeThresholds c h m l).high)) ∧
    ((severityStep mv (mergeThresholds c h m l)).1 = "P3" ↔
      (¬mv ≥ (mergeThresholds c h m l).critical ∧ ¬mv ≥ (mergeThresholds c h m l).high ∧
        mv ≥ (mergeThresholds c h m l).medium)) ∧
    ((severityStep mv (mergeThresholds c h m l)).1 = "P4" ↔
      (¬mv ≥ (mergeThresholds c h m l).critical ∧ ¬mv ≥ (mergeThresholds c h m l).high ∧
        ¬mv ≥ (mergeThresholds c h m l).medium)) ∧
    ((severityStep mv (mergeThresholds c h m l)).2 = true ↔
      ((severityStep mv (mergeThresholds c h m l)).1 = "P1" ∨
        (severityStep mv (mergeThresholds c h m l)).1 = "P2")) ∧
    mergeThresholds none none none none = ⟨90, 70, 50, 30⟩ := by
  obtain ⟨q1, q2, q3, q4⟩ := calculateSeverity_cases mv (mergeThresholds c h m l)
  refine ⟨q1, q2, q3, q4, ?_, rfl⟩
  simp [severityStep]

end Webhook

namespace LogAnalyzer

theorem selectBest_cases (j p n g : Analysis) :
    (selectBest j p n g = j ∧ p.nonNullCount ≤ j.nonNullCount ∧
      n.nonNullCount ≤ j.nonNullCount ∧ g.nonNullCount ≤ j.nonNullCount) ∨
    (selectBest j p n g = p ∧ j.nonNullCount < p.nonNullCount ∧
      n.nonNullCount ≤ p.nonNullCount ∧ g.nonNullCount ≤ p.nonNullCount) ∨
    (selectBest j p n g = n ∧ j.nonNullCount < n.nonNullCount ∧
      p.nonNullCount < n.nonNullCount ∧ g.nonNullCount ≤ n.nonNullCount) ∨
    (selectBest j p n g = g ∧ j.nonNullCount < g.nonNullCount ∧
      p.nonNullCount < g.nonNullCount ∧ n.nonNullCount < g.nonNullCount) := by
  by_cases h1 : p.nonNullCount > j.nonNullCount
  · by_cases h2 : n.nonNullCount > p.nonNullCount
    · by_cases h3 : g.nonNullCount > n.nonNullCount
      · exact Or.inr (Or.inr (Or.inr
          ⟨by simp [selectBest, h1, h2, h3], by omega, by omega, by omega⟩))
      · exact Or.inr (Or.inr (Or.inl
          ⟨by simp [selectBest, h1, h2, h3], by omega, by omega, by omega⟩))
    · by_cases h3 : g.nonNullCount > p.nonNullCount
      · exact Or.inr (Or.inr (Or.inr
          ⟨by simp [selectBest, h1, h2, h3], by omega, by omega, by omega⟩))
      · exact Or.inr (Or.inl
          ⟨by simp [selectBest, h1, h2, h3], by omega, by omega, by omega⟩)
  · by_cases h2 : n.nonNullCount > j.nonNullCount
    · by_cases h3 : g.nonNullCount > n.nonNullCount
      · exact Or.inr (Or.inr (Or.inr
          ⟨by simp [selectBest, h1, h2, h3], by omega, by omega, by omega⟩))
      · exact Or.inr (Or.inr (Or.inl
          ⟨by simp [selectBest, h1, h2, h3], by omega, by omega, by omega⟩))
    · by_cases h3 : g.nonNullCount > j.nonNullCount
      · exact Or.inr (Or.inr (Or.inr
          ⟨by simp [selectBest, h1, h2, h3], by omega, by omega, by omega⟩))
      · exact Or.inl ⟨by simp [selectBest, h1, h2, h3], by omega, by omega, by omega⟩

/-- C5: the analyzer adopts the structured key=value extraction result
(and sets `log_format == "structured"`) if and only if at least 2 of the
four key fields {service_name, extracted_classname, method_name,
error_type} of that result are non-null; otherwise it sets
`log_format == "traditional"` and adopts the fields of the best of the
four traditional extractors (Java, Python, Node.js, generic) — the one
with the greatest count of non-null fields, ties broken in declaration
order — merged onto the still-all-null result; in both branches a falsy
timestamp is afterwards replaced by the timestamp-pattern fallback. -/
theorem analyzer_dispatch_spec (s j p n g : Analysis) (ts : Option String) :
    ((analyzeDispatch s j p n g ts).log_format = some "structured" ↔
      hasSubstantialData s = true) ∧
    (hasSubstantialData s = true →
      (analyzeDispatch s j p n g ts).service_name = s.service_name ∧
      (analyzeDispatch s j p n g ts).extracted_classname = s.extracted_classname ∧
      (analyzeDispatch s j p n g ts).method_name = s.method_name ∧
      (analyzeDispatch s j p n g ts).line_number = s.line_number ∧
      (analyzeDispatch s j p n g ts).error_type = s.error_type ∧
      (analyzeDispatch s j p n g ts).endpoint = s.endpoint ∧
      (analyzeDispatch s j p n g ts).file_path = s.file_path ∧
      (analyzeDispatch s j p n g ts).root_cause_summary = s.root_cause_summary ∧
      (analyzeDispatch s j p n g ts).timestamp =
        (if pyTruthy s.timestamp then s.timestamp else ts)) ∧
    (hasSubstantialData s = false →
      (analyzeDispatch s j p n g ts).log_format = some "traditional" ∧
      (analyzeDispatch s j p n g ts).service_name = (selectBest j p n g).service_name ∧
      (analyzeDispatch s j p n g ts).extracted_classname =
        (selectBest j p n g).extracted_classname ∧
      (analyzeDispatch s j p n g ts).method_name = (selectBest j p n g).method_name ∧
      (analyzeDispatch s j p n g ts).line_number = (selectBest j p n g).line_number ∧
      (analyzeDispatch s j p n g ts).error_type = (selectBest j p n g).error_type ∧
      (analyzeDispatch s j p n g ts).endpoint = (selectBest j p n g).endpoint ∧
      (analyzeDispatch s j p n g ts).file_path = (selectBest j p n g).file_path ∧
      (analyzeDispatch s j p n g ts).root_cause_summary =
        (selectBest j p n g).root_cause_summary ∧
      (analyzeDispatch s j p n g ts).timestamp =
        (if pyTruthy (selectBest j p n g).timestamp then (selectBest j p n g).timestamp
         else ts)) ∧
    ((selectBest j p n g = j ∧ p.nonNullCount ≤ j.nonNullCount ∧
        n.nonNullCount ≤ j.nonNullCount ∧ g.nonNullCount ≤ j.nonNullCount) ∨
      (selectBest j p n g = p ∧ j.nonNullCount < p.nonNullCount ∧
        n.nonNullCount ≤ p.nonNullCount ∧ g.nonNullCount ≤ p.nonNullCount) ∨
      (selectBest j p n g = n ∧ j.nonNullCount < n.nonNullCount ∧
        p.nonNullCount < n.nonNullCount ∧ g.nonNullCount ≤ n.nonNullCount) ∨
      (selectBest j p n g = g ∧ j.nonNullCount < g.nonNullCount ∧
        p.nonNullCount < g.nonNullCount ∧ n.nonNullCount < g.nonNullCount)) := by
  have hdiff : some "traditional" ≠ some "structured" := by decide
  refine ⟨?_, ?_, ?_, selectBest_cases j p n g⟩
  · by_cases hsub : hasSubstantialData s
    · by_cases hts : pyTruthy s.timestamp <;>
        simp [analyzeDispatch, hsub, hts, LogResult.withAnalysis]
    · by_cases hts : pyTruthy (selectBest j p n g).timestamp <;>
        simp [analyzeDispatch, hsub, hts, LogResult.withAnalysis, hdiff]
  · intro hsub
    by_cases hts : pyTruthy s.timestamp <;>
      simp [analyzeDispatch, hsub, hts, LogResult.withAnalysis]
  · intro hsub
    by_cases hts : pyTruthy (selectBest j p n g).timestamp <;>
      simp [analyzeDispatch, hsub, hts, LogResult.withAnalysis]

/-- Witness for C5: a structured extraction with three of the four key
fields set is substantial and is adopted verbatim with
`log_format == "structured"`; an all-blank structured extraction is not
substantial and yields `log_format == "traditional"`. -/
theorem analyzer_dispatch_spec_w :
    (analyzeDispatch
        ⟨some "pay-api", some "PaymentController", none, none, some "NPE", none, none, none,
          none⟩
        Analysis.blank Analysis.blank Analysis.blank Analysis.blank none).service_name =
      some "pay-api" ∧
    (analyzeDispatch
        ⟨some "pay-api", some "PaymentController", none, none, some "NPE", none, none, none,
          none⟩
        Analysis.blank Analysis.blank Analysis.blank Analysis.blank none).log_format =
      some "structured" ∧
    (analyzeDispatch Analysis.blank Analysis.blank Analysis.blank Analysis.blank
        Analysis.blank none).log_format = some "traditional" :=
  ⟨((analyzer_dispatch_spec
      ⟨some "pay-api", some "PaymentController", none, none, some "NPE", none, none, none, none⟩
      Analysis.blank Analysis.blank Analysis.blank Analysis.blank none).2.1 (by decide)).1,
   (analyzer_dispatch_spec
      ⟨some "pay-api", some "PaymentController", none, none, some "NPE", none, none, none, none⟩
      Analysis.blank Analysis.blank Analysis.blank Analysis.blank none).1.mpr (by decide),
   ((analyzer_dispatch_spec Analysis.blank Analysis.blank Analysis.blank Analysis.blank
      Analysis.blank none).2.2.1 (by decide)).1⟩

end LogAnalyzer

namespace Retro

theorem parseTimestamp_some_not_empty (s : String) (t : PyDateTime)
    (h : parseTimestamp (some s) = some t) : s.isEmpty = false := by
  cases he : s.isEmpty
  · rfl
  · rw [parseTimestamp] at h
    simp [he] at h

/-- C9: for an incident whose `created_at` and `resolved_at` both parse
under the documented formats, agree on timezone-awareness, and lie
exactly 90 minutes (5 400 000 000 microseconds) apart, and whose every
other optional input is absent, the generated report's metrics carry
`total_incident_duration_minutes == 90` and
`total_incident_duration_hours == 1.50` (represented as 150 hundredths),
and the whole report is built with every section holding its documented
default placeholder instead of failing. -/
theorem retro_report_defaults (ca ra : String) (t1 t2 : PyDateTime)
    (h1 : parseTimestamp (some ca) = some t1)
    (h2 : parseTimestamp (some ra) = some t2)
    (htz : t1.tzMin.isSome = t2.tzMin.isSome)
    (hd : totalMicros t2 - totalMicros t1 = 5400000000)
    (reportStamp genTs : String) :
    buildReport { RetroIncident.empty with created_at := some ca, resolved_at := some ra }
        none none none reportStamp genTs =
      { report_metadata :=
          { report_id := "INC-RETRO-" ++ reportStamp
            generation_timestamp := genTs
            incident_id := "N/A"
            report_version := "1.0" }
        executive_summary :=
          { incident_id := "N/A", severity := "Unknown", priority := "Unknown",
            status := "Unknown", total_duration_hours_x100 := some 150,
            first_response_time_minutes := none, affected_systems_count := 0,
            affected_users_count := 0, resolution_method := "Unknown",
            brief_description := "No description provided..." }
        incident_details :=
          { incident_id := none, title := none, description := none, severity := none,
            priority := none, status := none, created_at := some ca, resolved_at := some ra,
            reporter := none, assigned_to := none, tags := [], incident_type := none }
        timeline_events :=
          sortTimeline
            [{ timestamp := ca, event := "Incident Created",
               description := "Incident None was created", source := "incident_system",
               url := none },
             { timestamp := ra, event := "Incident Resolved",
               description := "Incident marked as resolved", source := "incident_system",
               url := none }]
        root_cause_analysis :=
          { primary_cause := "Investigation ongoing", contributing_factors := [],
            failure_point := "Unknown", logs_analysis := "No logs analysis available",
            technical_details := "No technical details provided", why_analysis := [] }
        resolution_actions :=
          { immediate_actions := [], manual_steps := [], code_changes := [],
            documentation := [], preventive_measures := [] }
        impact_assessment :=
          { duration_minutes := 90, duration_hours_x100 := 150, affected_systems := [],
            affected_users_count := 0, business_impact := "Unknown",
            financial_impact := "Not calculated", customer_complaints := 0,
            sla_breach := false, impact_level := "Unknown" }
        response_team :=
          { incident_commander := none, assigned_engineers := [], escalated_to := [],
            external_contacts := [], slack_participants := none, slack_channel := none }
        lessons_learned :=
          { what_went_well := [], what_could_be_improved := [], action_items := [],
            prevention_recommendations := [], process_improvements := [],
            monitoring_enhancements := [], training_needs := [] }
        technical_appendix :=
          { error_logs := [], system_metrics := [], configuration_changes := [],
            monitoring_alerts := [], external_references := [] }
        key_metrics :=
          { total_incident_duration_minutes := some 90,
            total_incident_duration_hours_x100 := some 150,
            first_response_time_minutes := none, resolution_method := some "Unknown",
            affected_systems := some 0, affected_users := some 0,
            team_members_involved := none, calculation_error := false } } := by
  have hca := parseTimestamp_some_not_empty ca t1 h1
  have hra := parseTimestamp_some_not_empty ra t2 h2
  have e1 : truncDiv 5400000000 60000000 = 90 := by decide
  have e2 : halfEvenDiv 5400000000 36000000 = 150 := by decide
  have hmm : tzMismatch t1 t2 = false := by
    unfold tzMismatch
    rw [htz, bne_self_eq_false]
  have hmet : calcMetrics
      { RetroIncident.empty with created_at := some ca, resolved_at := some ra }
      none none none =
      { total_incident_duration_minutes := some 90,
        total_incident_duration_hours_x100 := some 150,
        first_response_time_minutes := none, resolution_method := some "Unknown",
        affected_systems := some 0, affected_users := some 0,
        team_members_involved := none, calculation_error := false } := by
    unfold calcMetrics
    simp only [RetroIncident.empty]
    rw [show parseTimestamp (some ca) = some t1 from h1,
      show parseTimestamp (some ra) = some t2 from h2]
    simp only [parseTimestamp]
    rw [hmm]
    simp only [Bool.false_eq_true, if_false, hd, e1, e2, metricsTail,
      determineResolutionMethod]
    simp
  unfold buildReport
  rw [hmet]
  unfold generateExecutiveSummary extractIncidentDetails generateTimeline
    generateRootCauseAnalysis generateResolutionActions generateImpactAssessment
    extractResponseTeam generateLessonsLearned generateTechnicalAppendix
  simp [RetroIncident.empty, pyTruthy, hca, hra, pyStr]

/-- Witness for C9 at two concrete timestamps 90 minutes apart: the
report's metrics show 90 minutes and 1.50 hours. -/
theorem retro_report_defaults_w :
    (buildReport
        { RetroIncident.empty with
          created_at := some "2024-03-05 10:00:00"
          resolved_at := some "2024-03-05 11:30:00" }
        none none none "S" "G").key_metrics =
      { total_incident_duration_minutes := some 90,
        total_incident_duration_hours_x100 := some 150,
        first_response_time_minutes := none, resolution_method := some "Unknown",
        affected_systems := some 0, affected_users := some 0,
        team_members_involved := none, calculation_error := false } := by
  rw [retro_report_defaults "2024-03-05 10:00:00" "2024-03-05 11:30:00"
    ⟨2024, 3, 5, 10, 0, 0, 0, none⟩ ⟨2024, 3, 5, 11, 30, 0, 0, none⟩
    (by decide) (by decide) rfl (by decide) "S" "G"]

end Retro

end OpsMind
